import Mathlib

/-!
Verification development for the ownlingo translation engine.

The file shallowly embeds the pieces of the code base that the checked
properties talk about:

* the TypeScript token/request rate limiter (src/utils/rate-limiter.ts,
  the RateLimiter class shipped together with src/shopify/queries.ts);
* the Go rate limiter (translator/ratelimit/ratelimit.go);
* the retry helper (src/utils/retry.ts: withRetry, isRetryable,
  calculateDelay);
* the provider fallback chain (TranslatorChain.translate);
* the translation job runner (JobCreator and TranslationJobRunner).

Machine floats of the source are modelled by rationals, wall-clock
timestamps by rational milliseconds, and the SQLite tables by explicit
lists of records.  Asynchronous sleeps carry no data, so they are modelled
by counters or by explicit time advances where the elapsed time matters.
-/

set_option maxHeartbeats 1000000

namespace TsRate

/-- State of the TypeScript RateLimiter class: two continuously refilled
buckets plus the timestamp of the last refill (milliseconds). -/
structure RateLimiter where
  tokensPerMinute : ℚ
  requestsPerMinute : ℚ
  tokenBucket : ℚ
  requestBucket : ℚ
  lastRefill : ℚ
deriving Repr, DecidableEq

/-- The private refill method: both buckets grow proportionally to the
elapsed wall-clock time since the last refill, capped at capacity. -/
def RateLimiter.refill (rl : RateLimiter) (now : ℚ) : RateLimiter :=
  let elapsedMs := now - rl.lastRefill
  let elapsedMinutes := elapsedMs / 60000
  { rl with
    tokenBucket := min rl.tokensPerMinute (rl.tokenBucket + rl.tokensPerMinute * elapsedMinutes)
    requestBucket :=
      min rl.requestsPerMinute (rl.requestBucket + rl.requestsPerMinute * elapsedMinutes)
    lastRefill := now }

/-- canProceed: refill, then test both bucket balances.  Returns the test
outcome together with the refilled state that the mutation left behind. -/
def RateLimiter.canProceed (rl : RateLimiter) (now estimatedTokens : ℚ) : Bool × RateLimiter :=
  let rl2 := rl.refill now
  ((decide (1 ≤ rl2.requestBucket) && decide (estimatedTokens ≤ rl2.tokenBucket)), rl2)

/-- consume: refill, then debit the requested tokens and one request.  The
source subtracts unconditionally, with no lower bound check. -/
def RateLimiter.consume (rl : RateLimiter) (now tokens : ℚ) : RateLimiter :=
  let rl2 := rl.refill now
  { rl2 with tokenBucket := rl2.tokenBucket - tokens, requestBucket := rl2.requestBucket - 1 }

/-- calculateResetTime of the source, a pure function of the state. -/
def RateLimiter.calculateResetTime (rl : RateLimiter) : ℚ :=
  if rl.tokensPerMinute ≤ rl.tokenBucket ∧ rl.requestsPerMinute ≤ rl.requestBucket then 0
  else
    let tokensNeeded := rl.tokensPerMinute - rl.tokenBucket
    let requestsNeeded := rl.requestsPerMinute - rl.requestBucket
    max (tokensNeeded / rl.tokensPerMinute * 60000) (requestsNeeded / rl.requestsPerMinute * 60000)

/-- waitForCapacity: loop until canProceed; each iteration reads
getStatus (which refills again at the same instant) and sleeps
min(resetInMs, 1000) milliseconds.  The model advances the clock by the
slept amount, records every slept duration, and bounds the loop by fuel;
on success it returns the limiter state left by the loop together with
the list of sleeps.  No debit happens here: consume is a separate call. -/
def RateLimiter.waitForCapacity :
    Nat → RateLimiter → ℚ → ℚ → Option (RateLimiter × List ℚ)
  | 0, _, _, _ => none
  | fuel + 1, rl, now, estimatedTokens =>
    let p := rl.canProceed now estimatedTokens
    if p.1 then some (p.2, [])
    else
      let rl3 := p.2.refill now
      let waitTime := min rl3.calculateResetTime 1000
      match RateLimiter.waitForCapacity fuel rl3 (now + waitTime) estimatedTokens with
      | none => none
      | some (rlEnd, waits) => some (rlEnd, waitTime :: waits)

/-- The rate-limiting part of BaseTranslator.translate: wait for capacity
with the estimated token count, run the provider call (not modelled here),
then consume the actual total usage.  The debit is performed by this
caller, after the wait returned. -/
def baseTranslateRateFlow (rl : RateLimiter) (startNow estimatedTokens : ℚ) (fuel : Nat)
    (callEndNow usageTotal : ℚ) : Option RateLimiter :=
  match RateLimiter.waitForCapacity fuel rl startNow estimatedTokens with
  | none => none
  | some (rlAfterWait, _) => some (rlAfterWait.consume callEndNow usageTotal)

end TsRate

namespace GoRate

/-- State of the Go Limiter (translator/ratelimit/ratelimit.go): integer
token and request balances with per-bucket last-fill timestamps
(rational milliseconds). -/
structure Limiter where
  tpm : ℤ
  rpm : ℤ
  tokens : ℤ
  tokensLastFill : ℚ
  requests : ℤ
  requestsLastFill : ℚ
deriving Repr, DecidableEq

/-- The refill step at the top of each waitTokens loop iteration: once a
full minute has elapsed the bucket is reset to full capacity; otherwise
nothing at all is refilled. -/
def Limiter.refillTokensStep (l : Limiter) (now : ℚ) : Limiter :=
  if 60000 ≤ now - l.tokensLastFill then { l with tokens := l.tpm, tokensLastFill := now } else l

/-- The refill step at the top of each waitRequests loop iteration. -/
def Limiter.refillRequestsStep (l : Limiter) (now : ℚ) : Limiter :=
  if 60000 ≤ now - l.requestsLastFill then
    { l with requests := l.rpm, requestsLastFill := now }
  else l

end GoRate

/-- Modelled from the spec: the balance the specification ascribes to a
bucket after e milliseconds without consumption, namely
min(capacity, previousBalance + capacity * e / 60000). -/
def specRefillBalance (capacity previousBalance e : ℚ) : ℚ :=
  min capacity (previousBalance + capacity * e / 60000)

namespace TsRetry

/-- Character-list prefix test, used to model String.prototype.includes. -/
def startsWithL : List Char → List Char → Bool
  | [], _ => true
  | _ :: _, [] => false
  | a :: as, b :: bs => a == b && startsWithL as bs

/-- Character-list substring test (haystack, needle), used to model
String.prototype.includes. -/
def containsSubL : List Char → List Char → Bool
  | [], needle => needle.isEmpty
  | c :: rest, needle => startsWithL needle (c :: rest) || containsSubL rest needle

/-- message.toLowerCase().includes(needle) of the source, over the char data. -/
def lowerIncludes (message needle : String) : Bool :=
  containsSubL (message.data.map Char.toLower) needle.data

/-- Errors reaching withRetry: TranslationError with its retryable flag,
its RateLimitError subclass (whose constructor fixes retryable to true and
carries retryAfterMs), and plain JavaScript errors with only a message. -/
inductive RetryError where
  | translationError (message provider : String) (retryable : Bool)
  | rateLimitError (provider : String) (retryAfterMs : ℚ)
  | plainError (message : String)
deriving Repr, DecidableEq

/-- isRetryable of src/utils/retry.ts: TranslationError instances use the
explicit flag (a RateLimitError is constructed with retryable = true);
other errors fall back to lower-cased message substring heuristics. -/
def isRetryable : RetryError → Bool
  | .translationError _ _ retryable => retryable
  | .rateLimitError _ _ => true
  | .plainError message =>
    lowerIncludes message ("rate limit") || lowerIncludes message ("429") ||
    lowerIncludes message ("500") || lowerIncludes message ("502") ||
    lowerIncludes message ("503") ||
    lowerIncludes message ("timeout") || lowerIncludes message ("econnreset")

/-- calculateDelay of the source.  rand is the Math.random() sample in
[0, 1) drawn for this call; jitter is rand * 0.3 * exponentialDelay and the
maxDelayMs cap is applied to the sum.  A RateLimitError with a positive
retryAfterMs short-circuits to min(retryAfterMs, maxDelayMs). -/
def calculateDelay (e : RetryError) (attempt : Nat) (baseDelayMs maxDelayMs rand : ℚ) : ℚ :=
  let exponentialDelay := baseDelayMs * 2 ^ attempt
  let jitter := rand * (3 / 10) * exponentialDelay
  let computed := min (exponentialDelay + jitter) maxDelayMs
  match e with
  | .rateLimitError _ retryAfterMs =>
    if 0 < retryAfterMs then min retryAfterMs maxDelayMs else computed
  | _ => computed

/-- The attempt loop of withRetry.  fn gives the outcome of the i-th call,
rand the Math.random() sample used for the delay after the i-th failure.
The pair (attempt, remaining) walks the source loop with
remaining = maxRetries - attempt.  The result records the returned or
thrown value, the list of slept delays, and the number of attempts made. -/
def withRetryGo {T : Type} (fn : Nat → Except RetryError T) (rand : Nat → ℚ)
    (baseDelayMs maxDelayMs : ℚ) : Nat → Nat → Except RetryError T × List ℚ × Nat
  | attempt, remaining =>
    match fn attempt with
    | .ok v => (.ok v, [], 1)
    | .error e =>
      if isRetryable e = false then (.error e, [], 1)
      else
        match remaining with
        | 0 => (.error e, [], 1)
        | r + 1 =>
          let d := calculateDelay e attempt baseDelayMs maxDelayMs (rand attempt)
          let rest := withRetryGo fn rand baseDelayMs maxDelayMs (attempt + 1) r
          (rest.1, d :: rest.2.1, rest.2.2 + 1)

/-- withRetry of the source: run the loop from attempt 0 with
maxRetries further attempts allowed. -/
def withRetry {T : Type} (fn : Nat → Except RetryError T) (rand : Nat → ℚ)
    (maxRetries : Nat) (baseDelayMs maxDelayMs : ℚ) : Except RetryError T × List ℚ × Nat :=
  withRetryGo fn rand baseDelayMs maxDelayMs 0 maxRetries

end TsRetry

/-- Modelled from the spec: the delay the claim ascribes to failed attempt
index a, namely min(baseDelayMs * 2 ^ a, maxDelayMs) plus a jitter of
rand * 30 percent of that capped value. -/
def specRetryDelay (attempt : Nat) (baseDelayMs maxDelayMs rand : ℚ) : ℚ :=
  min (baseDelayMs * 2 ^ attempt) maxDelayMs +
    rand * (3 / 10) * min (baseDelayMs * 2 ^ attempt) maxDelayMs

namespace TsChain

/-- Errors crossing TranslatorChain.translate: TranslationError (with the
retryable flag the chain consults) or any other thrown error. -/
inductive ChainError where
  | translationError (message provider : String) (retryable : Bool)
  | otherError (message : String)
deriving Repr, DecidableEq

/-- shouldFallback of the source: the retryable flag for TranslationError
instances, true for everything else. -/
def shouldFallback : ChainError → Bool
  | .translationError _ _ retryable => retryable
  | .otherError _ => true

/-- Behaviour of one provider adapter during a single chain traversal:
what isAvailable() returns, and what translate(request) would do. -/
structure ProviderSim (T : Type) where
  name : String
  available : Bool
  result : Except ChainError T

/-- Outcome of TranslatorChain.translate: a successful result, an error
rethrown without fallback, or the aggregate all-providers-failed
TranslationError carrying the recorded per-provider errors. -/
inductive ChainOutcome (T : Type) where
  | ok (v : T)
  | thrown (e : ChainError)
  | allFailed (errors : List ChainError)
deriving Repr

/-- The provider loop of TranslatorChain.translate with the recorded
errors accumulator.  An unavailable provider is skipped; a successful
translate returns immediately; a failure is recorded and the loop
continues only when shouldFallback holds, otherwise the error is
rethrown.  An exhausted list raises the aggregate error. -/
def translateGo {T : Type} : List (ProviderSim T) → List ChainError → ChainOutcome T
  | [], errors => .allFailed errors
  | p :: ps, errors =>
    if p.available then
      match p.result with
      | .ok v => .ok v
      | .error e => if shouldFallback e then translateGo ps (errors ++ [e]) else .thrown e
    else translateGo ps errors

/-- TranslatorChain.translate over the ordered provider list
(primary followed by the fallbacks). -/
def chainTranslate {T : Type} (providers : List (ProviderSim T)) : ChainOutcome T :=
  translateGo providers []

end TsChain

namespace Runner

/-- Status values of translation_job_items.status. -/
inductive ItemStatus where
  | pending | processing | completed | failed
deriving Repr, DecidableEq

/-- Status values of translation_jobs.status. -/
inductive JobStatus where
  | pending | running | completed | failed | cancelled
deriving Repr, DecidableEq

/-- A row of the resources table, the fields the runner reads. -/
structure Resource where
  id : String
  locale : String
  content : String
  content_hash : String
  title : String
deriving Repr, DecidableEq

/-- A row of the translation_job_items table. -/
structure JobItem where
  id : String
  job_id : String
  resource_id : String
  target_locale : String
  status : ItemStatus
  retry_count : Nat
  max_retries : Nat
  error_message : Option String
  translated_content : Option String
deriving Repr, DecidableEq

/-- A row of the translation_jobs table (timestamps are not modelled). -/
structure JobRec where
  id : String
  status : JobStatus
  priority : Int
  created_at : Nat
  total_items : Nat
  completed_items : Nat
  failed_items : Nat
  progress : ℚ
  error_message : Option String
deriving Repr, DecidableEq

/-- A row of the translations cache table, keyed by
(source_hash, target_locale) at lookup time. -/
structure TranslationRow where
  resource_id : String
  source_locale : String
  target_locale : String
  source_hash : String
  translated_content : String
  provider : String
deriving Repr, DecidableEq

/-- Events emitted by the runner via the EventEmitter. -/
inductive Event where
  | started
  | stopped
  | jobCompleted (jobId : String)
  | jobFailed (jobId error : String)
  | jobCancelled (jobId : String)
  | jobRetryEv (jobId : String)
  | itemCompleted (jobId itemId : String)
  | itemCacheHit (jobId itemId : String)
  | itemFailed (jobId itemId error : String)
  | itemRetry (jobId itemId : String) (retryCount : Nat)
  | progressEv (jobId : String) (total completed failed : Nat) (progress : ℚ)
deriving Repr, DecidableEq

/-- The request record passed to provider.translate. -/
structure TranslationRequest where
  text : String
  sourceLocale : String
  targetLocale : String
  context : String
deriving Repr, DecidableEq

/-- The response record returned by provider.translate. -/
structure TranslationResponse where
  translatedText : String
  provider : String
deriving Repr, DecidableEq

/-- Behaviour of the AI provider: each request either yields a response or
throws an error with the given message. -/
def ProviderFn : Type := TranslationRequest → Except String TranslationResponse

/-- Combined state of the database tables, the in-memory sets of the
TranslationJobRunner instance, the emitted events, and counters of the
suspension points (provider invocations, waitForRateLimit calls, retry
backoff sleeps), which stand in for the wall-clock effects. -/
structure RunnerState where
  resources : List Resource
  items : List JobItem
  jobs : List JobRec
  translations : List TranslationRow
  events : List Event
  activeJobs : List String
  cancelledJobs : List String
  providerCalls : Nat
  rateLimitWaits : Nat
  retrySleeps : Nat
deriving Repr, DecidableEq

/-- SELECT * FROM resources WHERE id = ?. -/
def getResource (st : RunnerState) (resourceId : String) : Option Resource :=
  st.resources.find? (fun r => r.id == resourceId)

/-- SELECT * FROM translations WHERE source_hash = ? AND target_locale = ?
LIMIT 1. -/
def getCachedTranslation (st : RunnerState) (sourceHash targetLocale : String) :
    Option TranslationRow :=
  st.translations.find? (fun t => t.source_hash == sourceHash && t.target_locale == targetLocale)

/-- INSERT INTO translations. -/
def cacheTranslation (st : RunnerState) (row : TranslationRow) : RunnerState :=
  { st with translations := st.translations ++ [row] }

/-- this.emit(event). -/
def emit (st : RunnerState) (e : Event) : RunnerState :=
  { st with events := st.events ++ [e] }

/-- SELECT * FROM translation_jobs WHERE id = ?. -/
def getJob (st : RunnerState) (jobId : String) : Option JobRec :=
  st.jobs.find? (fun j => j.id == jobId)

/-- SELECT * FROM translation_job_items WHERE id = ?, a read helper for
stating properties. -/
def getItem (st : RunnerState) (itemId : String) : Option JobItem :=
  st.items.find? (fun it => it.id == itemId)

/-- Merge of an optional field update: an absent key leaves the column. -/
def setOpt (new old : Option String) : Option String :=
  match new with
  | some v => some v
  | none => old

/-- updateItemStatus: UPDATE translation_job_items SET status = ?,
optionally translated_content / error_message, WHERE id = ?. -/
def updateItemStatus (st : RunnerState) (itemId : String) (status : ItemStatus)
    (translatedContent errorMessage : Option String) : RunnerState :=
  { st with items := st.items.map (fun it =>
      if it.id == itemId then
        { it with
          status := status
          translated_content := setOpt translatedContent it.translated_content
          error_message := setOpt errorMessage it.error_message }
      else it) }

/-- updateItemRetry: UPDATE translation_job_items SET retry_count = ?,
error_message = ?, status = pending WHERE id = ?. -/
def updateItemRetry (st : RunnerState) (itemId : String) (retryCount : Nat)
    (errorMessage : String) : RunnerState :=
  { st with items := st.items.map (fun it =>
      if it.id == itemId then
        { it with
          retry_count := retryCount
          error_message := some errorMessage
          status := ItemStatus.pending }
      else it) }

/-- updateJobStatus: UPDATE translation_jobs SET status = ?, optionally
error_message, WHERE id = ?. -/
def updateJobStatus (st : RunnerState) (jobId : String) (status : JobStatus)
    (errorMessage : Option String) : RunnerState :=
  { st with jobs := st.jobs.map (fun j =>
      if j.id == jobId then
        { j with status := status, error_message := setOpt errorMessage j.error_message }
      else j) }

/-- The predicate of the total count in updateJobProgress. -/
def isJobItem (jobId : String) (it : JobItem) : Bool := it.job_id == jobId

/-- The predicate of the completed count in updateJobProgress. -/
def isCompletedItem (jobId : String) (it : JobItem) : Bool :=
  it.job_id == jobId && it.status == ItemStatus.completed

/-- The predicate of the failed count in updateJobProgress. -/
def isFailedItem (jobId : String) (it : JobItem) : Bool :=
  it.job_id == jobId && it.status == ItemStatus.failed

/-- updateJobProgress: recount the items of the job, store the counters
and the percentage on the job row, and emit the progress event. -/
def updateJobProgress (st : RunnerState) (jobId : String) : RunnerState :=
  let total := st.items.countP (isJobItem jobId)
  let completed := st.items.countP (isCompletedItem jobId)
  let failed := st.items.countP (isFailedItem jobId)
  let progress : ℚ := if 0 < total then (completed : ℚ) / (total : ℚ) * 100 else 0
  let st2 := { st with jobs := st.jobs.map (fun j =>
      if j.id == jobId then
        { j with
          total_items := total
          completed_items := completed
          failed_items := failed
          progress := progress }
      else j) }
  emit st2 (.progressEv jobId total completed failed progress)

/-- waitForRateLimit: the inter-request spacing sleep before a provider
call.  Only the fact that the wait ran is observable in the model, so it
increments the dedicated counter. -/
def waitForRateLimit (st : RunnerState) : RunnerState :=
  { st with rateLimitWaits := st.rateLimitWaits + 1 }

/-- Record one provider.translate invocation. -/
def notePrv (st : RunnerState) : RunnerState :=
  { st with providerCalls := st.providerCalls + 1 }

/-- Record one retry backoff sleep (the setTimeout of config.retryDelay). -/
def noteSleep (st : RunnerState) : RunnerState :=
  { st with retrySleeps := st.retrySleeps + 1 }

/-- The try block of processJobItem: mark the item processing, load the
resource, look up the cache, and either complete the item from the cache
or call the provider behind the rate-limit wait.  Returns the state at
the end of the block together with the thrown error message, if any. -/
def attemptItem (provider : ProviderFn) (jobId : String) (item : JobItem)
    (st0 : RunnerState) : RunnerState × Option String :=
  let st1 := updateItemStatus st0 item.id ItemStatus.processing none none
  match getResource st1 item.resource_id with
  | none => (st1, some ("Resource not found: " ++ item.resource_id))
  | some resource =>
    match getCachedTranslation st1 resource.content_hash item.target_locale with
    | some cached =>
      let st2 := emit st1 (.itemCacheHit jobId item.id)
      let st3 := updateItemStatus st2 item.id ItemStatus.completed
        (some cached.translated_content) none
      let st4 := updateJobProgress st3 jobId
      (emit st4 (.itemCompleted jobId item.id), none)
    | none =>
      let st2 := waitForRateLimit st1
      let st3 := notePrv st2
      match provider ⟨resource.content, resource.locale, item.target_locale, resource.title⟩ with
      | .error msg => (st3, some msg)
      | .ok resp =>
        let st4 := cacheTranslation st3
          ⟨resource.id, resource.locale, item.target_locale, resource.content_hash,
            resp.translatedText, resp.provider⟩
        let st5 := updateItemStatus st4 item.id ItemStatus.completed
          (some resp.translatedText) none
        let st6 := updateJobProgress st5 jobId
        (emit st6 (.itemCompleted jobId item.id), none)

/-- processJobItem: run the try block; on an error increment the retry
count, and either reset the item to pending, emit item:retry, sleep the
retry delay and reprocess the same item, or mark it failed, update the
progress and emit item:failed. -/
def processJobItem (provider : ProviderFn) (jobId : String) (item : JobItem)
    (st0 : RunnerState) : RunnerState :=
  match attemptItem provider jobId item st0 with
  | (st1, none) => st1
  | (st1, some errMsg) =>
    let retryCount := item.retry_count + 1
    if _h : retryCount < item.max_retries then
      let st2 := updateItemRetry st1 item.id retryCount errMsg
      let st3 := emit st2 (.itemRetry jobId item.id retryCount)
      let st4 := noteSleep st3
      processJobItem provider jobId { item with retry_count := retryCount } st4
    else
      let st2 := updateItemStatus st1 item.id ItemStatus.failed none (some errMsg)
      let st3 := updateJobProgress st2 jobId
      emit st3 (.itemFailed jobId item.id errMsg)
termination_by item.max_retries - item.retry_count
decreasing_by simp_wf; omega

/-- SELECT the pending and failed items of the job in creation order. -/
def getJobItems (st : RunnerState) (jobId : String) : List JobItem :=
  st.items.filter (fun it =>
    it.job_id == jobId &&
      (it.status == ItemStatus.pending || it.status == ItemStatus.failed))

/-- The item loop of processJob: before dispatching each item, stop if the
job has been cancelled. -/
def processItems (provider : ProviderFn) (jobId : String) :
    List JobItem → RunnerState → RunnerState
  | [], st => st
  | item :: rest, st =>
    if st.cancelledJobs.contains jobId then st
    else processItems provider jobId rest (processJobItem provider jobId item st)

/-- finalizeJob: count the failed items and persist the terminal status —
the source assigns completed on both branches of its conditional — then
emit job:completed. -/
def finalizeJob (st : RunnerState) (jobId : String) : RunnerState :=
  let failedCount := st.items.countP (isFailedItem jobId)
  let status := if 0 < failedCount then JobStatus.completed else JobStatus.completed
  let st2 := updateJobStatus st jobId status none
  emit st2 (.jobCompleted jobId)

/-- processJob: a job already flagged cancelled is marked cancelled and
dropped from the cancelled set; otherwise the job joins the active set,
turns running, its pending and failed items are processed in order, and
the job is finalized and leaves the active set. -/
def processJob (provider : ProviderFn) (jobId : String) (st : RunnerState) : RunnerState :=
  if st.cancelledJobs.contains jobId then
    let st1 := updateJobStatus st jobId JobStatus.cancelled none
    { st1 with cancelledJobs := st1.cancelledJobs.erase jobId }
  else
    let st1 := { st with activeJobs := jobId :: st.activeJobs }
    let st2 := updateJobStatus st1 jobId JobStatus.running none
    let items := getJobItems st2 jobId
    let st3 := processItems provider jobId items st2
    let st4 := finalizeJob st3 jobId
    { st4 with activeJobs := st4.activeJobs.erase jobId }

/-- Set insertion for the cancelled set (a JavaScript Set does not keep
duplicates). -/
def addCancelled (st : RunnerState) (jobId : String) : RunnerState :=
  if st.cancelledJobs.contains jobId then st
  else { st with cancelledJobs := jobId :: st.cancelledJobs }

/-- Set deletion for the cancelled set. -/
def removeCancelled (st : RunnerState) (jobId : String) : RunnerState :=
  { st with cancelledJobs := st.cancelledJobs.erase jobId }

/-- cancelJob: flag the job cancelled; when it is not active, persist the
cancelled status at once and unflag it; emit job:cancelled in every case. -/
def cancelJob (st : RunnerState) (jobId : String) : RunnerState :=
  let st1 := addCancelled st jobId
  let st2 :=
    if st1.activeJobs.contains jobId then st1
    else removeCancelled (updateJobStatus st1 jobId JobStatus.cancelled none) jobId
  emit st2 (.jobCancelled jobId)

end Runner

namespace Sched

/-- The fields of a translation_jobs row that the poll loop reads. -/
structure SJob where
  id : String
  priority : Int
  created_at : Nat
  status : Runner.JobStatus
deriving Repr, DecidableEq

/-- Comparison step of ORDER BY priority DESC, created_at ASC: keep the
better of two candidates, preferring the earlier one on a full tie. -/
def better (a b : SJob) : SJob :=
  if b.priority > a.priority ∨ (b.priority = a.priority ∧ b.created_at < a.created_at) then b
  else a

/-- getNextJob: the first pending job under ORDER BY priority DESC,
created_at ASC LIMIT 1. -/
def getNextJob (jobs : List SJob) : Option SJob :=
  match jobs.filter (fun j => j.status == Runner.JobStatus.pending) with
  | [] => none
  | j :: rest => some (rest.foldl better j)

/-- Scheduler state: the jobs table, the set of active job ids, the
currentConcurrency field of the runner — initialised to 0 and, as in the
source, never written again — and the configured maxConcurrency. -/
structure SchedState where
  jobs : List SJob
  activeJobs : List String
  currentConcurrency : Nat
  maxConcurrency : Nat
deriving Repr, DecidableEq

/-- UPDATE of a job status inside the scheduler model. -/
def setJobStatus (jobs : List SJob) (jobId : String) (status : Runner.JobStatus) :
    List SJob :=
  jobs.map (fun x => if x.id == jobId then { x with status := status } else x)

/-- Effect of dispatching processJob(job.id) without awaiting it: the job
joins the active set and turns running; currentConcurrency is untouched
because no statement of the source ever updates it. -/
def dispatchNext (s : SchedState) (j : SJob) : SchedState :=
  { s with activeJobs := j.id :: s.activeJobs,
           jobs := setJobStatus s.jobs j.id Runner.JobStatus.running }

/-- Effect of an active job finishing: it leaves the active set. -/
def finishJob (s : SchedState) (jobId : String) : SchedState :=
  { s with activeJobs := s.activeJobs.erase jobId,
           jobs := setJobStatus s.jobs jobId Runner.JobStatus.completed }

/-- One observable step of the poll loop and of the concurrently running
jobs: a dispatch, guarded exactly as in processQueue by
getNextJob and by currentConcurrency < maxConcurrency, or the completion
of an active job. -/
inductive Step : SchedState → SchedState → Prop where
  | dispatch (s : SchedState) (j : SJob) (hj : getNextJob s.jobs = some j)
      (hc : s.currentConcurrency < s.maxConcurrency) : Step s (dispatchNext s j)
  | finish (s : SchedState) (jobId : String) (h : s.activeJobs.contains jobId = true) :
      Step s (finishJob s jobId)

/-- States reachable by the poll loop. -/
def Reachable : SchedState → SchedState → Prop := Relation.ReflTransGen Step

end Sched

namespace Runner

/-- A provider that always fails with an HTTP 500 message, a retryable
error by every classifier of the code base. -/
def provFail : ProviderFn := fun _ => Except.error ("HTTP 500 internal server error")

/-- A provider that always succeeds with a fixed translation. -/
def provOk : ProviderFn := fun _ => Except.ok ⟨"Bonjour", "test-provider"⟩

/-- A sample resource in the source locale. -/
def res1 : Resource := ⟨"r1", "en", "Hello", "h1", "Title1"⟩

/-- A fresh pending job row, counters all zero as JobCreator writes them. -/
def job1 : JobRec := ⟨"j1", JobStatus.pending, 0, 0, 0, 0, 0, 0, none⟩

/-- A pending item of job j1 translating r1 to fr, max_retries 3 as
JobCreator writes it. -/
def item1 : JobItem := ⟨"i1", "j1", "r1", "fr", ItemStatus.pending, 0, 3, none, none⟩

/-- A second pending item of job j1, also translating r1 to fr. -/
def item2 : JobItem := ⟨"i2", "j1", "r1", "fr", ItemStatus.pending, 0, 3, none, none⟩

/-- A state where job j1 with items i1 and i2 is about to run: the runner
has added it to the active set and marked it running. -/
def stTwoItems : RunnerState :=
  { resources := [res1]
    items := [item1, item2]
    jobs := [{ job1 with status := JobStatus.running }]
    translations := []
    events := []
    activeJobs := ["j1"]
    cancelledJobs := []
    providerCalls := 0
    rateLimitWaits := 0
    retrySleeps := 0 }

/-- A state like stTwoItems but with a single item, no resource row
backing it, and the job inactive and pending. -/
def stNoResource : RunnerState :=
  { resources := []
    items := [item1]
    jobs := [job1]
    translations := []
    events := []
    activeJobs := []
    cancelledJobs := []
    providerCalls := 0
    rateLimitWaits := 0
    retrySleeps := 0 }

/-- A state with one pending item whose provider call will always fail. -/
def stOneItem : RunnerState :=
  { resources := [res1]
    items := [item1]
    jobs := [job1]
    translations := []
    events := []
    activeJobs := []
    cancelledJobs := []
    providerCalls := 0
    rateLimitWaits := 0
    retrySleeps := 0 }

/-- A state like stOneItem whose cache already holds a translation for
the (h1, fr) pair of item i1. -/
def stCached : RunnerState :=
  { resources := [res1]
    items := [item1]
    jobs := [job1]
    translations := [⟨"r1", "en", "fr", "h1", "Bonjour", "test-provider"⟩]
    events := []
    activeJobs := []
    cancelledJobs := []
    providerCalls := 0
    rateLimitWaits := 0
    retrySleeps := 0 }

/-- A state whose items have all reached a terminal status: i1 completed,
i2 failed. -/
def stDone : RunnerState :=
  { resources := [res1]
    items := [{ item1 with status := ItemStatus.completed },
              { item2 with status := ItemStatus.failed }]
    jobs := [{ job1 with status := JobStatus.running }]
    translations := []
    events := []
    activeJobs := ["j1"]
    cancelledJobs := []
    providerCalls := 0
    rateLimitWaits := 0
    retrySleeps := 0 }

/-- The C7 cancellation scenario: starting from stTwoItems, item i1 is
processed (it succeeds via the provider), then cancelJob arrives while the
job is active, the item loop stops, and the job is finalized. -/
def cancelScenarioFinal : RunnerState :=
  finalizeJob
    (processItems provOk ("j1") [item2]
      (cancelJob (processJobItem provOk ("j1") item1 stTwoItems) ("j1")))
    ("j1")

end Runner

namespace Sched

/-- Two pending jobs of equal priority. -/
def c3job1 : SJob := ⟨"j1", 0, 0, Runner.JobStatus.pending⟩

/-- The second pending job, created later. -/
def c3job2 : SJob := ⟨"j2", 0, 1, Runner.JobStatus.pending⟩

/-- Initial scheduler state: two pending jobs, nothing active,
currentConcurrency 0 as the constructor writes it, maxConcurrency 1. -/
def c3init : SchedState :=
  { jobs := [c3job1, c3job2], activeJobs := [], currentConcurrency := 0, maxConcurrency := 1 }

/-- The state after the first poll tick dispatched j1. -/
def c3mid : SchedState := dispatchNext c3init c3job1

/-- The state after the second poll tick dispatched j2 while j1 is still
active: two jobs run concurrently under maxConcurrency 1. -/
def c3final : SchedState := dispatchNext c3mid c3job2

end Sched

namespace TsRate

/-- A limiter with full buckets: 100 tokens per minute, 10 requests per
minute, last refilled at time 0. -/
def rlFull : RateLimiter := ⟨100, 10, 100, 10, 0⟩

end TsRate

namespace GoRate

/-- A Go limiter with capacity 100 tokens per minute whose token bucket is
empty and was last filled at time 0. -/
def goL0 : Limiter := ⟨100, 10, 0, 0, 0, 0⟩

end GoRate

namespace TsChain

/-- Provider A: available, fails with a retryable TranslationError. -/
def provA : ProviderSim Nat :=
  ⟨"A", true, Except.error (ChainError.translationError ("rate limited") ("A") true)⟩

/-- Provider B: available and succeeds. -/
def provB : ProviderSim Nat := ⟨"B", true, Except.ok 42⟩

/-- Provider C: available but never reached in the fallback scenario. -/
def provC : ProviderSim Nat := ⟨"C", true, Except.ok 7⟩

/-- Provider D: unavailable. -/
def provD : ProviderSim Nat := ⟨"D", false, Except.ok 9⟩

/-- Provider E: available, fails with a non-retryable TranslationError. -/
def provE : ProviderSim Nat :=
  ⟨"E", true, Except.error (ChainError.translationError ("invalid api key") ("E") false)⟩

end TsChain

namespace TsRetry

/-- An attempt function that always throws a plain timeout error, which
isRetryable classifies as retryable. -/
def fnTimeout : Nat → Except RetryError Nat := fun _ => Except.error (.plainError ("timeout"))

/-- An attempt function that always throws a non-retryable auth error. -/
def fnAuth : Nat → Except RetryError Nat :=
  fun _ => Except.error (.plainError ("invalid api key"))

/-- A fixed Math.random() schedule of one half. -/
def randHalf : Nat → ℚ := fun _ => 1 / 2

end TsRetry

namespace TsRate

@[simp]
lemma refill_tokensPerMinute (rl : RateLimiter) (now : ℚ) :
    (rl.refill now).tokensPerMinute = rl.tokensPerMinute := rfl

@[simp]
lemma refill_requestsPerMinute (rl : RateLimiter) (now : ℚ) :
    (rl.refill now).requestsPerMinute = rl.requestsPerMinute := rfl

@[simp]
lemma refill_lastRefill (rl : RateLimiter) (now : ℚ) :
    (rl.refill now).lastRefill = now := rfl

lemma refill_tokenBucket_le (rl : RateLimiter) (now : ℚ) :
    (rl.refill now).tokenBucket ≤ rl.tokensPerMinute := by
  simp [RateLimiter.refill]

lemma refill_requestBucket_le (rl : RateLimiter) (now : ℚ) :
    (rl.refill now).requestBucket ≤ rl.requestsPerMinute := by
  simp [RateLimiter.refill]

lemma min_shift (c x d : ℚ) (hd : 0 ≤ d) : min c (min c x + d) = min c (x + d) := by
  rcases le_total x c with h | h
  · rw [min_eq_right h]
  · rw [min_eq_left h, min_eq_left (by linarith), min_eq_left (by linarith)]

lemma refill_refill (rl : RateLimiter) (now t : ℚ) (hct : 0 ≤ rl.tokensPerMinute)
    (hcr : 0 ≤ rl.requestsPerMinute) (h : now ≤ t) :
    (rl.refill now).refill t = rl.refill t := by
  have hd1 : (0 : ℚ) ≤ rl.tokensPerMinute * ((t - now) / 60000) :=
    mul_nonneg hct (div_nonneg (by linarith) (by norm_num))
  have hd2 : (0 : ℚ) ≤ rl.requestsPerMinute * ((t - now) / 60000) :=
    mul_nonneg hcr (div_nonneg (by linarith) (by norm_num))
  cases rl with
  | mk ct cr tb rb lr =>
    simp only at hd1 hd2
    simp only [RateLimiter.refill, RateLimiter.mk.injEq]
    refine ⟨trivial, trivial, ?_, ?_, trivial⟩
    · rw [min_shift _ _ _ hd1]
      congr 1
      ring
    · rw [min_shift _ _ _ hd2]
      congr 1
      ring

lemma calculateResetTime_nonneg (rl : RateLimiter) (h1 : 0 < rl.tokensPerMinute)
    (_h2 : 0 < rl.requestsPerMinute) (hb1 : rl.tokenBucket ≤ rl.tokensPerMinute) :
    0 ≤ rl.calculateResetTime := by
  unfold RateLimiter.calculateResetTime
  split
  · exact le_refl 0
  · refine le_trans ?_ (le_max_left _ _)
    have : 0 ≤ rl.tokensPerMinute - rl.tokenBucket := by linarith
    positivity

lemma waitForCapacity_spec (est : ℚ) :
    ∀ (fuel : Nat) (rl : RateLimiter) (now : ℚ) (rl2 : RateLimiter) (ws : List ℚ),
      0 < rl.tokensPerMinute → 0 < rl.requestsPerMinute →
      RateLimiter.waitForCapacity fuel rl now est = some (rl2, ws) →
      (1 ≤ rl2.requestBucket ∧ est ≤ rl2.tokenBucket) ∧
        rl2 = rl.refill rl2.lastRefill ∧ now ≤ rl2.lastRefill ∧
        ∀ w ∈ ws, 0 ≤ w ∧ w ≤ 1000 := by
  intro fuel
  induction fuel with
  | zero =>
    intro rl now rl2 ws h1 h2 h
    simp [RateLimiter.waitForCapacity] at h
  | succ n ih =>
    intro rl now rl2 ws h1 h2 h
    simp only [RateLimiter.waitForCapacity, RateLimiter.canProceed] at h
    by_cases hc :
        (decide (1 ≤ (rl.refill now).requestBucket) &&
          decide (est ≤ (rl.refill now).tokenBucket)) = true
    · rw [if_pos hc] at h
      simp only [Option.some.injEq, Prod.mk.injEq] at h
      obtain ⟨hrl2, hws⟩ := h
      simp only [Bool.and_eq_true, decide_eq_true_eq] at hc
      subst hrl2
      refine ⟨⟨hc.1, hc.2⟩, ?_, ?_, ?_⟩
      · rw [refill_lastRefill]
      · rw [refill_lastRefill]
      · intro w hw
        rw [← hws] at hw
        simp at hw
    · rw [if_neg hc] at h
      set rl3 := ((rl.refill now).refill now) with hrl3
      set w := min rl3.calculateResetTime 1000 with hw
      cases hrec : RateLimiter.waitForCapacity n rl3 (now + w) est with
      | none => rw [hrec] at h; simp at h
      | some pr =>
        obtain ⟨rlE, wl⟩ := pr
        rw [hrec] at h
        simp only [Option.some.injEq, Prod.mk.injEq] at h
        obtain ⟨hrl2, hws⟩ := h
        have h3t : 0 < rl3.tokensPerMinute := by
          rw [hrl3]; simpa using h1
        have h3r : 0 < rl3.requestsPerMinute := by
          rw [hrl3]; simpa using h2
        obtain ⟨hcond, heq, hle, hwl⟩ := ih rl3 (now + w) rlE wl h3t h3r hrec
        have hwnn : 0 ≤ w := by
          rw [hw]
          have : 0 ≤ rl3.calculateResetTime := by
            apply calculateResetTime_nonneg rl3 h3t h3r
            rw [hrl3]
            simpa using refill_tokenBucket_le (rl.refill now) now
          exact le_min this (by norm_num)
        have hr3 : rl3 = rl.refill now := by
          rw [hrl3]
          exact refill_refill rl now now (le_of_lt h1) (le_of_lt h2) (le_refl now)
        subst hrl2
        have hnowE : now ≤ rlE.lastRefill := le_trans (by linarith) hle
        refine ⟨hcond, ?_, hnowE, ?_⟩
        · calc rlE = rl3.refill rlE.lastRefill := heq
            _ = (rl.refill now).refill rlE.lastRefill := by rw [hr3]
            _ = rl.refill rlE.lastRefill :=
              refill_refill rl now rlE.lastRefill (le_of_lt h1) (le_of_lt h2) hnowE
        · intro x hx
          rw [← hws] at hx
          rcases List.mem_cons.mp hx with hx1 | hx2
          · subst hx1
            exact ⟨hwnn, by rw [hw]; exact min_le_right _ _⟩
          · exact hwl x hx2

end TsRate

/-- C5: the claim states every rate-limiter bucket refills continuously in
proportion to elapsed time.  Counterexample: the Go limiter token bucket,
empty and half a minute old, stays empty after the waitTokens refill step,
while the claimed formula gives 50 of 100 tokens. -/
theorem c5_counterexample :
    ((GoRate.goL0.refillTokensStep 30000).tokens : ℚ) = 0 ∧
      specRefillBalance ((GoRate.goL0.tpm : ℚ)) ((GoRate.goL0.tokens : ℚ)) 30000 = 50 ∧
      ((GoRate.goL0.refillTokensStep 30000).tokens : ℚ) ≠
        specRefillBalance ((GoRate.goL0.tpm : ℚ)) ((GoRate.goL0.tokens : ℚ)) 30000 := by
  refine ⟨?_, ?_, ?_⟩ <;>
    norm_num [GoRate.goL0, GoRate.Limiter.refillTokensStep, specRefillBalance]

/-- C5 amended: the TypeScript RateLimiter refills continuously — after e
elapsed milliseconds each bucket holds min(capacity, previous + capacity *
e / 60000) — while the Go Limiter refills discretely: a bucket younger
than one minute is not refilled at all, and one at least a minute old is
reset to full capacity. -/
theorem c5_refill_semantics :
    (∀ (rl : TsRate.RateLimiter) (now : ℚ),
      (rl.refill now).tokenBucket
          = specRefillBalance rl.tokensPerMinute rl.tokenBucket (now - rl.lastRefill) ∧
      (rl.refill now).requestBucket
          = specRefillBalance rl.requestsPerMinute rl.requestBucket (now - rl.lastRefill)) ∧
    (∀ (l : GoRate.Limiter) (now : ℚ),
      (now - l.tokensLastFill < 60000 → l.refillTokensStep now = l) ∧
      (60000 ≤ now - l.tokensLastFill → (l.refillTokensStep now).tokens = l.tpm)) ∧
    (∀ (l : GoRate.Limiter) (now : ℚ),
      (now - l.requestsLastFill < 60000 → l.refillRequestsStep now = l) ∧
      (60000 ≤ now - l.requestsLastFill → (l.refillRequestsStep now).requests = l.rpm)) := by
  refine ⟨?_, ?_, ?_⟩
  · intro rl now
    constructor
    · simp only [TsRate.RateLimiter.refill, specRefillBalance]
      congr 1
      ring
    · simp only [TsRate.RateLimiter.refill, specRefillBalance]
      congr 1
      ring
  · intro l now
    constructor
    · intro h
      simp [GoRate.Limiter.refillTokensStep, not_le.mpr h]
    · intro h
      simp [GoRate.Limiter.refillTokensStep, h]
  · intro l now
    constructor
    · intro h
      simp [GoRate.Limiter.refillRequestsStep, not_le.mpr h]
    · intro h
      simp [GoRate.Limiter.refillRequestsStep, h]

/-- Witness for the amended C5 statement at concrete inputs. -/
theorem c5_refill_semantics_witness :
    ((TsRate.rlFull.refill 30000).tokenBucket
        = specRefillBalance TsRate.rlFull.tokensPerMinute TsRate.rlFull.tokenBucket
            (30000 - TsRate.rlFull.lastRefill)) ∧
      GoRate.goL0.refillTokensStep 30000 = GoRate.goL0 ∧
      (GoRate.goL0.refillRequestsStep 70000).requests = GoRate.goL0.rpm := by
  refine ⟨(c5_refill_semantics.1 TsRate.rlFull 30000).1, ?_, ?_⟩
  · exact (c5_refill_semantics.2.1 GoRate.goL0 30000).1 (by norm_num [GoRate.goL0])
  · exact (c5_refill_semantics.2.2 GoRate.goL0 70000).2 (by norm_num [GoRate.goL0])

lemma TsRate.refill_rlFull_zero : TsRate.rlFull.refill 0 = TsRate.rlFull := by
  show TsRate.RateLimiter.mk _ _ _ _ _ = _
  norm_num [TsRate.RateLimiter.refill, TsRate.rlFull]

lemma TsRate.wait_rlFull :
    TsRate.RateLimiter.waitForCapacity 1 TsRate.rlFull 0 50 = some (TsRate.rlFull, []) := by
  simp only [TsRate.RateLimiter.waitForCapacity, TsRate.RateLimiter.canProceed,
    TsRate.refill_rlFull_zero]
  norm_num [TsRate.rlFull]

/-- C6: the claim states waitForCapacity atomically debits both buckets
before returning, so that buckets never go below zero.  Counterexample:
with full buckets the wait returns at once with the balance undebited
(100, not 100 - 50), and a consume call taking 150 tokens drives the
token bucket to -50. -/
theorem c6_counterexample :
    TsRate.RateLimiter.waitForCapacity 1 TsRate.rlFull 0 50 = some (TsRate.rlFull, []) ∧
      TsRate.rlFull.tokenBucket = 100 ∧
      TsRate.rlFull.tokenBucket ≠ 100 - 50 ∧
      (TsRate.rlFull.consume 0 150).tokenBucket = -50 ∧
      ¬ 0 ≤ (TsRate.rlFull.consume 0 150).tokenBucket := by
  refine ⟨?_, by norm_num [TsRate.rlFull], by norm_num [TsRate.rlFull], ?_, ?_⟩
  · exact TsRate.wait_rlFull
  · show (TsRate.rlFull.consume 0 150).tokenBucket = -50
    norm_num [TsRate.RateLimiter.consume, TsRate.RateLimiter.refill, TsRate.rlFull]
  · show ¬ 0 ≤ (TsRate.rlFull.consume 0 150).tokenBucket
    norm_num [TsRate.RateLimiter.consume, TsRate.RateLimiter.refill, TsRate.rlFull]

/-- C6 amended: waitForCapacity blocks through bounded sleeps (each slept
duration lies in [0, 1000] ms), re-evaluating capacity each iteration, and
returns exactly when the refilled state satisfies requestBucket >= 1 and
tokenBucket >= estimatedTokens; it debits nothing — the state it leaves is
a pure refill of the original.  The debit is the separate unconditional
consume call that BaseTranslator.translate performs with the actual usage
after the provider call, and consume simply subtracts, allowing negative
balances. -/
theorem c6_wait_and_consume :
    (∀ (fuel : Nat) (rl : TsRate.RateLimiter) (now est : ℚ)
        (rl2 : TsRate.RateLimiter) (ws : List ℚ),
      0 < rl.tokensPerMinute → 0 < rl.requestsPerMinute →
      TsRate.RateLimiter.waitForCapacity fuel rl now est = some (rl2, ws) →
      (1 ≤ rl2.requestBucket ∧ est ≤ rl2.tokenBucket) ∧
        rl2 = rl.refill rl2.lastRefill ∧ now ≤ rl2.lastRefill ∧
        ∀ w ∈ ws, 0 ≤ w ∧ w ≤ 1000) ∧
    (∀ (rl : TsRate.RateLimiter) (now tokens : ℚ),
      (rl.consume now tokens).tokenBucket = (rl.refill now).tokenBucket - tokens ∧
      (rl.consume now tokens).requestBucket = (rl.refill now).requestBucket - 1) ∧
    (∀ (rl : TsRate.RateLimiter) (fuel : Nat) (startNow est callEndNow usageTotal : ℚ)
        (rlW : TsRate.RateLimiter) (ws : List ℚ),
      TsRate.RateLimiter.waitForCapacity fuel rl startNow est = some (rlW, ws) →
      TsRate.baseTranslateRateFlow rl startNow est fuel callEndNow usageTotal
        = some (rlW.consume callEndNow usageTotal)) := by
  refine ⟨?_, ?_, ?_⟩
  · intro fuel rl now est rl2 ws h1 h2 h
    exact TsRate.waitForCapacity_spec est fuel rl now rl2 ws h1 h2 h
  · intro rl now tokens
    constructor <;> simp [TsRate.RateLimiter.consume]
  · intro rl fuel startNow est callEndNow usageTotal rlW ws h
    unfold TsRate.baseTranslateRateFlow
    rw [h]

/-- Witness for the amended C6 statement at concrete inputs. -/
theorem c6_wait_and_consume_witness :
    ((1 ≤ TsRate.rlFull.requestBucket ∧ (50 : ℚ) ≤ TsRate.rlFull.tokenBucket) ∧
        TsRate.rlFull = TsRate.rlFull.refill TsRate.rlFull.lastRefill ∧
        (0 : ℚ) ≤ TsRate.rlFull.lastRefill ∧
        ∀ w ∈ ([] : List ℚ), 0 ≤ w ∧ w ≤ 1000) ∧
      (TsRate.rlFull.consume 0 150).tokenBucket = (TsRate.rlFull.refill 0).tokenBucket - 150 ∧
      TsRate.baseTranslateRateFlow TsRate.rlFull 0 50 1 0 150
        = some (TsRate.rlFull.consume 0 150) := by
  refine ⟨?_, ?_, ?_⟩
  · exact c6_wait_and_consume.1 1 TsRate.rlFull 0 50 TsRate.rlFull []
      (by norm_num [TsRate.rlFull]) (by norm_num [TsRate.rlFull]) TsRate.wait_rlFull
  · exact (c6_wait_and_consume.2.1 TsRate.rlFull 0 150).1
  · exact c6_wait_and_consume.2.2 TsRate.rlFull 1 0 50 0 150 TsRate.rlFull []
      TsRate.wait_rlFull

namespace TsRetry

lemma withRetryGo_unfold {T : Type} (fn : Nat → Except RetryError T) (rand : Nat → ℚ)
    (baseDelayMs maxDelayMs : ℚ) (attempt remaining : Nat) :
    withRetryGo fn rand baseDelayMs maxDelayMs attempt remaining =
      match fn attempt with
      | .ok v => (.ok v, [], 1)
      | .error e =>
        if isRetryable e = false then (.error e, [], 1)
        else
          match remaining with
          | 0 => (.error e, [], 1)
          | r + 1 =>
            let d := calculateDelay e attempt baseDelayMs maxDelayMs (rand attempt)
            let rest := withRetryGo fn rand baseDelayMs maxDelayMs (attempt + 1) r
            (rest.1, d :: rest.2.1, rest.2.2 + 1) := by
  rw [withRetryGo]

lemma withRetryGo_attempt_bounds {T : Type} (fn : Nat → Except RetryError T)
    (rand : Nat → ℚ) (baseDelayMs maxDelayMs : ℚ) :
    ∀ (remaining attempt : Nat),
      (withRetryGo fn rand baseDelayMs maxDelayMs attempt remaining).2.1.length + 1
          = (withRetryGo fn rand baseDelayMs maxDelayMs attempt remaining).2.2 ∧
        (withRetryGo fn rand baseDelayMs maxDelayMs attempt remaining).2.2 ≤ remaining + 1 := by
  intro remaining
  induction remaining with
  | zero =>
    intro attempt
    rw [withRetryGo_unfold]
    cases fn attempt with
    | ok v => simp
    | error e =>
      by_cases hr : isRetryable e = false
      · simp [hr]
      · simp [hr]
  | succ r ih =>
    intro attempt
    rw [withRetryGo_unfold]
    cases fn attempt with
    | ok v => simp
    | error e =>
      by_cases hr : isRetryable e = false
      · simp [hr]
      · have h2 := ih (attempt + 1)
        simp [hr]
        omega

lemma withRetryGo_all_fail {T : Type} (fn : Nat → Except RetryError T) (rand : Nat → ℚ)
    (baseDelayMs maxDelayMs : ℚ) (errs : Nat → RetryError)
    (hfn : ∀ i, fn i = .error (errs i)) (hret : ∀ i, isRetryable (errs i) = true) :
    ∀ (rem attempt : Nat),
      withRetryGo fn rand baseDelayMs maxDelayMs attempt rem =
        (.error (errs (attempt + rem)),
          (List.range rem).map (fun k =>
            calculateDelay (errs (attempt + k)) (attempt + k) baseDelayMs maxDelayMs
              (rand (attempt + k))),
          rem + 1) := by
  intro rem
  induction rem with
  | zero =>
    intro attempt
    rw [withRetryGo_unfold, hfn attempt]
    simp [hret attempt]
  | succ r ih =>
    intro attempt
    rw [withRetryGo_unfold, hfn attempt]
    simp only [hret attempt, Bool.true_eq_false, if_false, ih (attempt + 1)]
    simp only [Prod.mk.injEq]
    refine ⟨?_, ?_, trivial⟩
    · have e2 : attempt + 1 + r = attempt + (r + 1) := by omega
      rw [e2]
    · rw [List.range_succ_eq_map, List.map_cons, List.map_map]
      refine congrArg₂ _ ?_ ?_
      · simp
      · refine List.map_congr_left ?_
        intro k _
        have e1 : attempt + 1 + k = attempt + (k + 1) := by omega
        simp only [Function.comp_apply, Nat.succ_eq_add_one]
        rw [e1]

end TsRetry

/-- C9: the claim states the slept delay equals min(base * 2 ^ attempt,
maxDelayMs) plus jitter of up to 30 percent of that capped value.
Counterexample at attempt 5, base 1000, cap 30000, random sample one half:
the code sleeps 30000 (the cap is applied after adding jitter to the
uncapped exponential delay) while the claimed formula gives 34500. -/
theorem c9_counterexample :
    TsRetry.calculateDelay (TsRetry.RetryError.plainError ("timeout")) 5 1000 30000 (1 / 2)
        = 30000 ∧
      specRetryDelay 5 1000 30000 (1 / 2) = 34500 ∧
      TsRetry.calculateDelay (TsRetry.RetryError.plainError ("timeout")) 5 1000 30000 (1 / 2)
        ≠ specRetryDelay 5 1000 30000 (1 / 2) := by
  refine ⟨?_, ?_, ?_⟩ <;>
    norm_num [TsRetry.calculateDelay, specRetryDelay, min_def]

/-- C9 amended: withRetry makes at most maxRetries + 1 attempts and sleeps
exactly between consecutive attempts (never after the last); a
non-retryable error is rethrown at once with no further attempts; when
every attempt fails with a retryable error, the run makes exactly
maxRetries + 1 attempts and sleeps calculateDelay after each failure but
the last, where the delay is min(base * 2 ^ attempt + jitter, maxDelayMs)
with the jitter equal to rand * 30 percent of the uncapped exponential
delay — the cap is applied after the jitter — and a RateLimitError with a
positive retryAfterMs instead sleeps min(retryAfterMs, maxDelayMs). -/
theorem c9_retry_behaviour :
    (∀ (T : Type) (fn : Nat → Except TsRetry.RetryError T) (rand : Nat → ℚ)
        (base maxD : ℚ) (maxRetries : Nat),
      (TsRetry.withRetry fn rand maxRetries base maxD).2.1.length + 1
          = (TsRetry.withRetry fn rand maxRetries base maxD).2.2 ∧
        (TsRetry.withRetry fn rand maxRetries base maxD).2.2 ≤ maxRetries + 1) ∧
    (∀ (T : Type) (fn : Nat → Except TsRetry.RetryError T) (rand : Nat → ℚ)
        (base maxD : ℚ) (maxRetries : Nat) (e : TsRetry.RetryError),
      fn 0 = .error e → TsRetry.isRetryable e = false →
      TsRetry.withRetry fn rand maxRetries base maxD = (.error e, [], 1)) ∧
    (∀ (T : Type) (fn : Nat → Except TsRetry.RetryError T) (rand : Nat → ℚ)
        (base maxD : ℚ) (maxRetries : Nat) (errs : Nat → TsRetry.RetryError),
      (∀ i, fn i = .error (errs i)) → (∀ i, TsRetry.isRetryable (errs i) = true) →
      TsRetry.withRetry fn rand maxRetries base maxD =
        (.error (errs (0 + maxRetries)),
          (List.range maxRetries).map (fun k =>
            TsRetry.calculateDelay (errs (0 + k)) (0 + k) base maxD (rand (0 + k))),
          maxRetries + 1)) ∧
    (∀ (s : String) (attempt : Nat) (base maxD rand : ℚ),
      TsRetry.calculateDelay (TsRetry.RetryError.plainError s) attempt base maxD rand
        = min (base * 2 ^ attempt + rand * (3 / 10) * (base * 2 ^ attempt)) maxD) ∧
    (∀ (p : String) (retryAfterMs : ℚ) (attempt : Nat) (base maxD rand : ℚ),
      0 < retryAfterMs →
      TsRetry.calculateDelay (TsRetry.RetryError.rateLimitError p retryAfterMs)
          attempt base maxD rand = min retryAfterMs maxD) := by
  refine ⟨?_, ?_, ?_, ?_, ?_⟩
  · intro T fn rand base maxD maxRetries
    exact TsRetry.withRetryGo_attempt_bounds fn rand base maxD maxRetries 0
  · intro T fn rand base maxD maxRetries e hfn hret
    unfold TsRetry.withRetry
    rw [TsRetry.withRetryGo_unfold, hfn]
    cases maxRetries <;> simp [hret]
  · intro T fn rand base maxD maxRetries errs hfn hret
    exact TsRetry.withRetryGo_all_fail fn rand base maxD errs hfn hret maxRetries 0
  · intro s attempt base maxD rand
    simp [TsRetry.calculateDelay]
  · intro p retryAfterMs attempt base maxD rand h
    simp [TsRetry.calculateDelay, h]

/-- Witness for the amended C9 statement at concrete inputs. -/
theorem c9_retry_behaviour_witness :
    ((TsRetry.withRetry TsRetry.fnTimeout TsRetry.randHalf 3 1000 30000).2.1.length + 1
        = (TsRetry.withRetry TsRetry.fnTimeout TsRetry.randHalf 3 1000 30000).2.2 ∧
      (TsRetry.withRetry TsRetry.fnTimeout TsRetry.randHalf 3 1000 30000).2.2 ≤ 3 + 1) ∧
      TsRetry.withRetry TsRetry.fnAuth TsRetry.randHalf 3 1000 30000
        = (.error (TsRetry.RetryError.plainError ("invalid api key")), [], 1) ∧
      TsRetry.withRetry TsRetry.fnTimeout TsRetry.randHalf 3 1000 30000
        = (.error (TsRetry.RetryError.plainError ("timeout")),
            (List.range 3).map (fun k =>
              TsRetry.calculateDelay (TsRetry.RetryError.plainError ("timeout")) (0 + k)
                1000 30000 (TsRetry.randHalf (0 + k))),
            3 + 1) ∧
      TsRetry.calculateDelay (TsRetry.RetryError.plainError ("timeout")) 5 1000 30000 (1 / 3)
        = min ((1000 : ℚ) * 2 ^ 5 + (1 / 3) * (3 / 10) * (1000 * 2 ^ 5)) 30000 ∧
      TsRetry.calculateDelay (TsRetry.RetryError.rateLimitError ("openai") 7000) 2
          1000 30000 (1 / 3) = min (7000 : ℚ) 30000 := by
  refine ⟨?_, ?_, ?_, ?_, ?_⟩
  · exact c9_retry_behaviour.1 Nat TsRetry.fnTimeout TsRetry.randHalf 1000 30000 3
  · exact c9_retry_behaviour.2.1 Nat TsRetry.fnAuth TsRetry.randHalf 1000 30000 3
      (TsRetry.RetryError.plainError ("invalid api key")) rfl (by decide)
  · have h : TsRetry.isRetryable (TsRetry.RetryError.plainError ("timeout")) = true := by
      decide
    exact c9_retry_behaviour.2.2.1 Nat TsRetry.fnTimeout TsRetry.randHalf 1000 30000 3
      (fun _ => TsRetry.RetryError.plainError ("timeout")) (fun _ => rfl) (fun _ => h)
  · exact c9_retry_behaviour.2.2.2.1 ("timeout") 5 1000 30000 (1 / 3)
  · exact c9_retry_behaviour.2.2.2.2 ("openai") 7000 2 1000 30000 (1 / 3) (by norm_num)

namespace TsChain

lemma translateGo_all_fail {T : Type} :
    ∀ (ps : List (String × ChainError)),
      (∀ pr ∈ ps, shouldFallback pr.2 = true) →
      ∀ (acc : List ChainError),
        translateGo (T := T)
            (ps.map (fun pr => ⟨pr.1, true, Except.error pr.2⟩)) acc
          = .allFailed (acc ++ ps.map Prod.snd) := by
  intro ps
  induction ps with
  | nil =>
    intro _ acc
    simp [translateGo]
  | cons hd tl ih =>
    intro h acc
    have hhd : shouldFallback hd.2 = true := h hd (List.mem_cons_self hd tl)
    have htl : ∀ pr ∈ tl, shouldFallback pr.2 = true :=
      fun pr hpr => h pr (List.mem_cons_of_mem hd hpr)
    simp only [List.map_cons, translateGo, hhd, if_true]
    rw [ih htl (acc ++ [hd.2])]
    simp

end TsChain

/-- C4: TranslatorChain.translate tries providers in order, skips the
unavailable ones, returns the first success immediately, records a
failure and falls through to the next provider exactly when shouldFallback
classifies the error retryable, rethrows a non-retryable error at once,
and, with every provider exhausted, raises the aggregate error listing
each recorded provider failure in order. -/
theorem c4_chain_fallback :
    (∀ (T : Type) (p : TsChain.ProviderSim T) (ps : List (TsChain.ProviderSim T))
        (acc : List TsChain.ChainError),
      p.available = false →
      TsChain.translateGo (p :: ps) acc = TsChain.translateGo ps acc) ∧
    (∀ (T : Type) (p : TsChain.ProviderSim T) (ps : List (TsChain.ProviderSim T))
        (acc : List TsChain.ChainError) (v : T),
      p.available = true → p.result = .ok v →
      TsChain.translateGo (p :: ps) acc = .ok v) ∧
    (∀ (T : Type) (p : TsChain.ProviderSim T) (ps : List (TsChain.ProviderSim T))
        (acc : List TsChain.ChainError) (e : TsChain.ChainError),
      p.available = true → p.result = .error e → TsChain.shouldFallback e = false →
      TsChain.translateGo (p :: ps) acc = .thrown e) ∧
    (∀ (T : Type) (p : TsChain.ProviderSim T) (ps : List (TsChain.ProviderSim T))
        (acc : List TsChain.ChainError) (e : TsChain.ChainError),
      p.available = true → p.result = .error e → TsChain.shouldFallback e = true →
      TsChain.translateGo (p :: ps) acc = TsChain.translateGo ps (acc ++ [e])) ∧
    (∀ (T : Type) (ps : List (String × TsChain.ChainError)),
      (∀ pr ∈ ps, TsChain.shouldFallback pr.2 = true) →
      TsChain.chainTranslate (T := T)
          (ps.map (fun pr => ⟨pr.1, true, Except.error pr.2⟩))
        = .allFailed (ps.map Prod.snd)) := by
  refine ⟨?_, ?_, ?_, ?_, ?_⟩
  · intro T p ps acc h
    simp [TsChain.translateGo, h]
  · intro T p ps acc v h1 h2
    simp [TsChain.translateGo, h1, h2]
  · intro T p ps acc e h1 h2 h3
    simp [TsChain.translateGo, h1, h2, h3]
  · intro T p ps acc e h1 h2 h3
    simp [TsChain.translateGo, h1, h2, h3]
  · intro T ps h
    unfold TsChain.chainTranslate
    rw [TsChain.translateGo_all_fail ps h []]
    simp

/-- Witness for C4 at concrete providers: an unavailable provider is
skipped, a succeeding provider returns immediately, a non-retryable
failure aborts the chain, a retryable failure is recorded and control
falls through, and a chain of only retryable failures aggregates them. -/
theorem c4_chain_fallback_witness :
    TsChain.translateGo (TsChain.provD :: [TsChain.provB]) []
        = TsChain.translateGo [TsChain.provB] [] ∧
      TsChain.translateGo (TsChain.provB :: [TsChain.provC]) [] = .ok 42 ∧
      TsChain.translateGo (TsChain.provE :: [TsChain.provB]) []
        = .thrown (TsChain.ChainError.translationError ("invalid api key") ("E") false) ∧
      TsChain.translateGo (TsChain.provA :: [TsChain.provB]) []
        = TsChain.translateGo [TsChain.provB]
            ([] ++ [TsChain.ChainError.translationError ("rate limited") ("A") true]) ∧
      TsChain.chainTranslate (T := Nat)
          ([(("A"), TsChain.ChainError.translationError ("rate limited") ("A") true)].map
            (fun pr => ⟨pr.1, true, Except.error pr.2⟩))
        = .allFailed
            ([(("A"), TsChain.ChainError.translationError ("rate limited") ("A") true)].map
              Prod.snd) := by
  refine ⟨?_, ?_, ?_, ?_, ?_⟩
  · exact c4_chain_fallback.1 Nat TsChain.provD [TsChain.provB] [] rfl
  · exact c4_chain_fallback.2.1 Nat TsChain.provB [TsChain.provC] [] 42 rfl rfl
  · exact c4_chain_fallback.2.2.1 Nat TsChain.provE [TsChain.provB] []
      (TsChain.ChainError.translationError ("invalid api key") ("E") false) rfl rfl rfl
  · exact c4_chain_fallback.2.2.2.1 Nat TsChain.provA [TsChain.provB] []
      (TsChain.ChainError.translationError ("rate limited") ("A") true) rfl rfl rfl
  · exact c4_chain_fallback.2.2.2.2 Nat
      [(("A"), TsChain.ChainError.translationError ("rate limited") ("A") true)]
      (by decide)

namespace Runner

lemma find?_update_items (l : List JobItem) (itemId : String) (f : JobItem → JobItem)
    (hf : ∀ it, (f it).id = it.id) :
    (l.map (fun it => if it.id == itemId then f it else it)).find? (fun it => it.id == itemId)
      = (l.find? (fun it => it.id == itemId)).map f := by
  induction l with
  | nil => rfl
  | cons a t ih =>
    simp only [List.map_cons]
    by_cases h : (a.id == itemId) = true
    · have hfa : ((f a).id == itemId) = true := by rw [hf]; exact h
      rw [if_pos h]
      simp [List.find?_cons, h, hfa]
    · have hb : (a.id == itemId) = false := by simpa using h
      rw [if_neg h, List.find?_cons, List.find?_cons, hb]
      exact ih

lemma find?_update_items_ne (l : List JobItem) (itemId otherId : String) (f : JobItem → JobItem)
    (hf : ∀ it, (f it).id = it.id) (hne : otherId ≠ itemId) :
    (l.map (fun it => if it.id == itemId then f it else it)).find? (fun it => it.id == otherId)
      = l.find? (fun it => it.id == otherId) := by
  induction l with
  | nil => rfl
  | cons a t ih =>
    simp only [List.map_cons]
    by_cases h : (a.id == otherId) = true
    · have ha : a.id = otherId := by simpa [beq_iff_eq] using h
      have hne2 : ¬((a.id == itemId) = true) := by
        simp only [beq_iff_eq, ha]
        exact hne
      rw [if_neg hne2]
      simp [List.find?_cons, h]
    · have hupd : ((if a.id == itemId then f a else a).id == otherId) = false := by
        by_cases h2 : (a.id == itemId) = true
        · rw [if_pos h2, hf]
          simpa using h
        · rw [if_neg h2]
          simpa using h
      have hb : (a.id == otherId) = false := by simpa using h
      rw [List.find?_cons, List.find?_cons, hupd, hb]
      exact ih

lemma find?_update_jobs (l : List JobRec) (jobId : String) (f : JobRec → JobRec)
    (hf : ∀ j, (f j).id = j.id) :
    (l.map (fun j => if j.id == jobId then f j else j)).find? (fun j => j.id == jobId)
      = (l.find? (fun j => j.id == jobId)).map f := by
  induction l with
  | nil => rfl
  | cons a t ih =>
    simp only [List.map_cons]
    by_cases h : (a.id == jobId) = true
    · have hfa : ((f a).id == jobId) = true := by rw [hf]; exact h
      rw [if_pos h]
      simp [List.find?_cons, h, hfa]
    · have hb : (a.id == jobId) = false := by simpa using h
      rw [if_neg h, List.find?_cons, List.find?_cons, hb]
      exact ih

lemma getItem_updateItemStatus (st : RunnerState) (itemId : String) (s : ItemStatus)
    (tc em : Option String) :
    getItem (updateItemStatus st itemId s tc em) itemId
      = (getItem st itemId).map (fun it =>
          { it with
            status := s
            translated_content := setOpt tc it.translated_content
            error_message := setOpt em it.error_message }) := by
  unfold getItem updateItemStatus
  exact find?_update_items st.items itemId _ (fun it => rfl)

lemma getItem_updateItemStatus_ne (st : RunnerState) (itemId otherId : String) (s : ItemStatus)
    (tc em : Option String) (hne : otherId ≠ itemId) :
    getItem (updateItemStatus st itemId s tc em) otherId = getItem st otherId := by
  unfold getItem updateItemStatus
  exact find?_update_items_ne st.items itemId otherId _ (fun it => rfl) hne

lemma getItem_updateItemRetry (st : RunnerState) (itemId : String) (rc : Nat) (msg : String) :
    getItem (updateItemRetry st itemId rc msg) itemId
      = (getItem st itemId).map (fun it =>
          { it with
            retry_count := rc
            error_message := some msg
            status := ItemStatus.pending }) := by
  unfold getItem updateItemRetry
  exact find?_update_items st.items itemId _ (fun it => rfl)

lemma getItem_updateItemRetry_ne (st : RunnerState) (itemId otherId : String) (rc : Nat)
    (msg : String) (hne : otherId ≠ itemId) :
    getItem (updateItemRetry st itemId rc msg) otherId = getItem st otherId := by
  unfold getItem updateItemRetry
  exact find?_update_items_ne st.items itemId otherId _ (fun it => rfl) hne

lemma getJob_updateJobStatus (st : RunnerState) (jobId : String) (s : JobStatus)
    (em : Option String) :
    getJob (updateJobStatus st jobId s em) jobId
      = (getJob st jobId).map (fun j =>
          { j with status := s, error_message := setOpt em j.error_message }) := by
  unfold getJob updateJobStatus
  exact find?_update_jobs st.jobs jobId _ (fun j => rfl)

lemma getJob_updateJobProgress (st : RunnerState) (jobId : String) :
    getJob (updateJobProgress st jobId) jobId
      = (getJob st jobId).map (fun j =>
          { j with
            total_items := st.items.countP (isJobItem jobId)
            completed_items := st.items.countP (isCompletedItem jobId)
            failed_items := st.items.countP (isFailedItem jobId)
            progress :=
              if 0 < st.items.countP (isJobItem jobId) then
                ((st.items.countP (isCompletedItem jobId) : ℚ)
                    / (st.items.countP (isJobItem jobId) : ℚ)) * 100
              else 0 }) := by
  unfold getJob updateJobProgress emit
  exact find?_update_jobs st.jobs jobId _ (fun j => rfl)

lemma countP_completed_add_failed_le (l : List JobItem) (jobId : String) :
    l.countP (isCompletedItem jobId) + l.countP (isFailedItem jobId)
      ≤ l.countP (isJobItem jobId) := by
  induction l with
  | nil => simp
  | cons a t ih =>
    cases hs : a.status <;> by_cases hj : (a.job_id == jobId) = true <;>
      simp [List.countP_cons, isJobItem, isCompletedItem, isFailedItem, hs, hj] <;> omega

lemma countP_completed_add_failed_eq (l : List JobItem) (jobId : String)
    (h : ∀ it ∈ l, it.job_id = jobId →
      it.status = ItemStatus.completed ∨ it.status = ItemStatus.failed) :
    l.countP (isCompletedItem jobId) + l.countP (isFailedItem jobId)
      = l.countP (isJobItem jobId) := by
  induction l with
  | nil => simp
  | cons a t ih =>
    have ht : ∀ it ∈ t, it.job_id = jobId →
        it.status = ItemStatus.completed ∨ it.status = ItemStatus.failed :=
      fun it hit => h it (List.mem_cons_of_mem a hit)
    have iht := ih ht
    by_cases hj : (a.job_id == jobId) = true
    · have hterm := h a (List.mem_cons_self a t) (by simpa [beq_iff_eq] using hj)
      cases hs : a.status
      · rw [hs] at hterm
        rcases hterm with h1 | h1 <;> exact absurd h1 (by decide)
      · rw [hs] at hterm
        rcases hterm with h1 | h1 <;> exact absurd h1 (by decide)
      · simp [List.countP_cons, isJobItem, isCompletedItem, isFailedItem, hs, hj]
        omega
      · simp [List.countP_cons, isJobItem, isCompletedItem, isFailedItem, hs, hj]
        omega
    · simp [List.countP_cons, isJobItem, isCompletedItem, isFailedItem, hj]
      omega

end Runner

/-- C7 amended: whenever updateJobProgress persists the counters,
completedItems + failedItems is at most totalItems, with equality whenever
every item of the job is in a terminal status — in particular after an
uncancelled run that drove each item to completed or failed.  The equality
half of the original claim fails for cancelled jobs (see the
counterexample), so it is restricted to terminal states reached without
cancellation. -/
theorem c7_progress_invariant :
    (∀ (st : Runner.RunnerState) (jobId : String) (j : Runner.JobRec),
      Runner.getJob (Runner.updateJobProgress st jobId) jobId = some j →
      j.completed_items + j.failed_items ≤ j.total_items) ∧
    (∀ (st : Runner.RunnerState) (jobId : String) (j : Runner.JobRec),
      (∀ it ∈ st.items, it.job_id = jobId →
        it.status = Runner.ItemStatus.completed ∨ it.status = Runner.ItemStatus.failed) →
      Runner.getJob (Runner.updateJobProgress st jobId) jobId = some j →
      j.completed_items + j.failed_items = j.total_items) := by
  constructor
  · intro st jobId j hj
    rw [Runner.getJob_updateJobProgress] at hj
    cases hj0 : Runner.getJob st jobId with
    | none => rw [hj0] at hj; simp at hj
    | some j0 =>
      rw [hj0] at hj
      simp only [Option.map] at hj
      injection hj with hj2
      rw [← hj2]
      exact Runner.countP_completed_add_failed_le st.items jobId
  · intro st jobId j hterm hj
    rw [Runner.getJob_updateJobProgress] at hj
    cases hj0 : Runner.getJob st jobId with
    | none => rw [hj0] at hj; simp at hj
    | some j0 =>
      rw [hj0] at hj
      simp only [Option.map] at hj
      injection hj with hj2
      rw [← hj2]
      exact Runner.countP_completed_add_failed_eq st.items jobId hterm

namespace Runner

lemma processJobItem_of_success (provider : ProviderFn) (jobId : String) (item : JobItem)
    (st : RunnerState) (h : (attemptItem provider jobId item st).2 = none) :
    processJobItem provider jobId item st = (attemptItem provider jobId item st).1 := by
  rcases hA : attemptItem provider jobId item st with ⟨st1, msg⟩
  rw [hA] at h
  simp only at h
  subst h
  unfold processJobItem
  rw [hA]

lemma processJobItem_of_fail_retry (provider : ProviderFn) (jobId : String) (item : JobItem)
    (st st1 : RunnerState) (msg : String)
    (h : attemptItem provider jobId item st = (st1, some msg))
    (hlt : item.retry_count + 1 < item.max_retries) :
    processJobItem provider jobId item st =
      processJobItem provider jobId { item with retry_count := item.retry_count + 1 }
        (noteSleep (emit (updateItemRetry st1 item.id (item.retry_count + 1) msg)
          (Event.itemRetry jobId item.id (item.retry_count + 1)))) := by
  conv_lhs => rw [processJobItem]
  rw [h]
  simp only [hlt, dite_true]

lemma processJobItem_of_fail_final (provider : ProviderFn) (jobId : String) (item : JobItem)
    (st st1 : RunnerState) (msg : String)
    (h : attemptItem provider jobId item st = (st1, some msg))
    (hge : ¬(item.retry_count + 1 < item.max_retries)) :
    processJobItem provider jobId item st =
      emit (updateJobProgress (updateItemStatus st1 item.id ItemStatus.failed none (some msg))
        jobId) (Event.itemFailed jobId item.id msg) := by
  conv_lhs => rw [processJobItem]
  rw [h]
  simp only [hge, dite_false]

end Runner

/-- C7: the claim asserts equality of completedItems + failedItems with
totalItems in every terminal state.  Counterexample: job j1 runs, its
first item completes, cancelJob arrives, the loop stops, and finalizeJob
persists the terminal status completed with counters 1 + 0 over 2 total
items. -/
theorem c7_counterexample :
    (Runner.getJob Runner.cancelScenarioFinal ("j1")).map
        (fun j => (j.status, j.completed_items, j.failed_items, j.total_items))
      = some (Runner.JobStatus.completed, 1, 0, 2) ∧
      (1 : Nat) + 0 ≠ 2 := by
  have h1 : (Runner.attemptItem Runner.provOk ("j1") Runner.item1 Runner.stTwoItems).2
      = none := by decide
  constructor
  · unfold Runner.cancelScenarioFinal
    rw [Runner.processJobItem_of_success Runner.provOk ("j1") Runner.item1
      Runner.stTwoItems h1]
    decide
  · decide

lemma c7_counts_stTwoItems :
    Runner.getJob (Runner.updateJobProgress Runner.stTwoItems ("j1")) ("j1")
      = some ⟨"j1", Runner.JobStatus.running, 0, 0, 2, 0, 0, 0, none⟩ := by
  rw [Runner.getJob_updateJobProgress]
  have hj : Runner.getJob Runner.stTwoItems ("j1")
      = some { Runner.job1 with status := Runner.JobStatus.running } := rfl
  have hc1 : Runner.stTwoItems.items.countP (Runner.isJobItem ("j1")) = 2 := by decide
  have hc2 : Runner.stTwoItems.items.countP (Runner.isCompletedItem ("j1")) = 0 := by decide
  have hc3 : Runner.stTwoItems.items.countP (Runner.isFailedItem ("j1")) = 0 := by decide
  rw [hj, hc1, hc2, hc3]
  simp only [Option.map]
  norm_num [Runner.job1]

lemma c7_counts_stDone :
    Runner.getJob (Runner.updateJobProgress Runner.stDone ("j1")) ("j1")
      = some ⟨"j1", Runner.JobStatus.running, 0, 0, 2, 1, 1, 50, none⟩ := by
  rw [Runner.getJob_updateJobProgress]
  have hj : Runner.getJob Runner.stDone ("j1")
      = some { Runner.job1 with status := Runner.JobStatus.running } := rfl
  have hc1 : Runner.stDone.items.countP (Runner.isJobItem ("j1")) = 2 := by decide
  have hc2 : Runner.stDone.items.countP (Runner.isCompletedItem ("j1")) = 1 := by decide
  have hc3 : Runner.stDone.items.countP (Runner.isFailedItem ("j1")) = 1 := by decide
  rw [hj, hc1, hc2, hc3]
  simp only [Option.map]
  norm_num [Runner.job1]

/-- Witness for the amended C7 statement at concrete states. -/
theorem c7_progress_invariant_witness :
    ((0 : Nat) + 0 ≤ 2) ∧ ((1 : Nat) + 1 = 2) := by
  constructor
  · exact c7_progress_invariant.1 Runner.stTwoItems ("j1")
      ⟨"j1", Runner.JobStatus.running, 0, 0, 2, 0, 0, 0, none⟩ c7_counts_stTwoItems
  · exact c7_progress_invariant.2 Runner.stDone ("j1")
      ⟨"j1", Runner.JobStatus.running, 0, 0, 2, 1, 1, 50, none⟩ (by decide) c7_counts_stDone

namespace Runner

@[simp] lemma emit_resources (st : RunnerState) (e : Event) :
    (emit st e).resources = st.resources := rfl
@[simp] lemma emit_items (st : RunnerState) (e : Event) : (emit st e).items = st.items := rfl
@[simp] lemma emit_jobs (st : RunnerState) (e : Event) : (emit st e).jobs = st.jobs := rfl
@[simp] lemma emit_translations (st : RunnerState) (e : Event) :
    (emit st e).translations = st.translations := rfl
@[simp] lemma emit_events (st : RunnerState) (e : Event) :
    (emit st e).events = st.events ++ [e] := rfl
@[simp] lemma emit_activeJobs (st : RunnerState) (e : Event) :
    (emit st e).activeJobs = st.activeJobs := rfl
@[simp] lemma emit_cancelledJobs (st : RunnerState) (e : Event) :
    (emit st e).cancelledJobs = st.cancelledJobs := rfl
@[simp] lemma emit_providerCalls (st : RunnerState) (e : Event) :
    (emit st e).providerCalls = st.providerCalls := rfl
@[simp] lemma emit_rateLimitWaits (st : RunnerState) (e : Event) :
    (emit st e).rateLimitWaits = st.rateLimitWaits := rfl
@[simp] lemma emit_retrySleeps (st : RunnerState) (e : Event) :
    (emit st e).retrySleeps = st.retrySleeps := rfl

@[simp] lemma updateItemStatus_resources (st : RunnerState) (i : String) (s : ItemStatus)
    (tc em : Option String) : (updateItemStatus st i s tc em).resources = st.resources := rfl
@[simp] lemma updateItemStatus_jobs (st : RunnerState) (i : String) (s : ItemStatus)
    (tc em : Option String) : (updateItemStatus st i s tc em).jobs = st.jobs := rfl
@[simp] lemma updateItemStatus_translations (st : RunnerState) (i : String) (s : ItemStatus)
    (tc em : Option String) : (updateItemStatus st i s tc em).translations = st.translations :=
  rfl
@[simp] lemma updateItemStatus_events (st : RunnerState) (i : String) (s : ItemStatus)
    (tc em : Option String) : (updateItemStatus st i s tc em).events = st.events := rfl
@[simp] lemma updateItemStatus_activeJobs (st : RunnerState) (i : String) (s : ItemStatus)
    (tc em : Option String) : (updateItemStatus st i s tc em).activeJobs = st.activeJobs := rfl
@[simp] lemma updateItemStatus_cancelledJobs (st : RunnerState) (i : String) (s : ItemStatus)
    (tc em : Option String) :
    (updateItemStatus st i s tc em).cancelledJobs = st.cancelledJobs := rfl
@[simp] lemma updateItemStatus_providerCalls (st : RunnerState) (i : String) (s : ItemStatus)
    (tc em : Option String) :
    (updateItemStatus st i s tc em).providerCalls = st.providerCalls := rfl
@[simp] lemma updateItemStatus_rateLimitWaits (st : RunnerState) (i : String) (s : ItemStatus)
    (tc em : Option String) :
    (updateItemStatus st i s tc em).rateLimitWaits = st.rateLimitWaits := rfl
@[simp] lemma updateItemStatus_retrySleeps (st : RunnerState) (i : String) (s : ItemStatus)
    (tc em : Option String) : (updateItemStatus st i s tc em).retrySleeps = st.retrySleeps :=
  rfl

@[simp] lemma updateItemRetry_resources (st : RunnerState) (i : String) (rc : Nat)
    (msg : String) : (updateItemRetry st i rc msg).resources = st.resources := rfl
@[simp] lemma updateItemRetry_jobs (st : RunnerState) (i : String) (rc : Nat) (msg : String) :
    (updateItemRetry st i rc msg).jobs = st.jobs := rfl
@[simp] lemma updateItemRetry_translations (st : RunnerState) (i : String) (rc : Nat)
    (msg : String) : (updateItemRetry st i rc msg).translations = st.translations := rfl
@[simp] lemma updateItemRetry_events (st : RunnerState) (i : String) (rc : Nat)
    (msg : String) : (updateItemRetry st i rc msg).events = st.events := rfl
@[simp] lemma updateItemRetry_activeJobs (st : RunnerState) (i : String) (rc : Nat)
    (msg : String) : (updateItemRetry st i rc msg).activeJobs = st.activeJobs := rfl
@[simp] lemma updateItemRetry_cancelledJobs (st : RunnerState) (i : String) (rc : Nat)
    (msg : String) : (updateItemRetry st i rc msg).cancelledJobs = st.cancelledJobs := rfl
@[simp] lemma updateItemRetry_providerCalls (st : RunnerState) (i : String) (rc : Nat)
    (msg : String) : (updateItemRetry st i rc msg).providerCalls = st.providerCalls := rfl
@[simp] lemma updateItemRetry_rateLimitWaits (st : RunnerState) (i : String) (rc : Nat)
    (msg : String) : (updateItemRetry st i rc msg).rateLimitWaits = st.rateLimitWaits := rfl
@[simp] lemma updateItemRetry_retrySleeps (st : RunnerState) (i : String) (rc : Nat)
    (msg : String) : (updateItemRetry st i rc msg).retrySleeps = st.retrySleeps := rfl

@[simp] lemma updateJobStatus_resources (st : RunnerState) (j : String) (s : JobStatus)
    (em : Option String) : (updateJobStatus st j s em).resources = st.resources := rfl
@[simp] lemma updateJobStatus_items (st : RunnerState) (j : String) (s : JobStatus)
    (em : Option String) : (updateJobStatus st j s em).items = st.items := rfl
@[simp] lemma updateJobStatus_translations (st : RunnerState) (j : String) (s : JobStatus)
    (em : Option String) : (updateJobStatus st j s em).translations = st.translations := rfl
@[simp] lemma updateJobStatus_events (st : RunnerState) (j : String) (s : JobStatus)
    (em : Option String) : (updateJobStatus st j s em).events = st.events := rfl
@[simp] lemma updateJobStatus_activeJobs (st : RunnerState) (j : String) (s : JobStatus)
    (em : Option String) : (updateJobStatus st j s em).activeJobs = st.activeJobs := rfl
@[simp] lemma updateJobStatus_cancelledJobs (st : RunnerState) (j : String) (s : JobStatus)
    (em : Option String) : (updateJobStatus st j s em).cancelledJobs = st.cancelledJobs := rfl
@[simp] lemma updateJobStatus_providerCalls (st : RunnerState) (j : String) (s : JobStatus)
    (em : Option String) : (updateJobStatus st j s em).providerCalls = st.providerCalls := rfl
@[simp] lemma updateJobStatus_rateLimitWaits (st : RunnerState) (j : String) (s : JobStatus)
    (em : Option String) : (updateJobStatus st j s em).rateLimitWaits = st.rateLimitWaits :=
  rfl
@[simp] lemma updateJobStatus_retrySleeps (st : RunnerState) (j : String) (s : JobStatus)
    (em : Option String) : (updateJobStatus st j s em).retrySleeps = st.retrySleeps := rfl

@[simp] lemma updateJobProgress_resources (st : RunnerState) (j : String) :
    (updateJobProgress st j).resources = st.resources := rfl
@[simp] lemma updateJobProgress_items (st : RunnerState) (j : String) :
    (updateJobProgress st j).items = st.items := rfl
@[simp] lemma updateJobProgress_translations (st : RunnerState) (j : String) :
    (updateJobProgress st j).translations = st.translations := rfl
@[simp] lemma updateJobProgress_activeJobs (st : RunnerState) (j : String) :
    (updateJobProgress st j).activeJobs = st.activeJobs := rfl
@[simp] lemma updateJobProgress_cancelledJobs (st : RunnerState) (j : String) :
    (updateJobProgress st j).cancelledJobs = st.cancelledJobs := rfl
@[simp] lemma updateJobProgress_providerCalls (st : RunnerState) (j : String) :
    (updateJobProgress st j).providerCalls = st.providerCalls := rfl
@[simp] lemma updateJobProgress_rateLimitWaits (st : RunnerState) (j : String) :
    (updateJobProgress st j).rateLimitWaits = st.rateLimitWaits := rfl
@[simp] lemma updateJobProgress_retrySleeps (st : RunnerState) (j : String) :
    (updateJobProgress st j).retrySleeps = st.retrySleeps := rfl

@[simp] lemma cacheTranslation_resources (st : RunnerState) (row : TranslationRow) :
    (cacheTranslation st row).resources = st.resources := rfl
@[simp] lemma cacheTranslation_items (st : RunnerState) (row : TranslationRow) :
    (cacheTranslation st row).items = st.items := rfl
@[simp] lemma cacheTranslation_jobs (st : RunnerState) (row : TranslationRow) :
    (cacheTranslation st row).jobs = st.jobs := rfl
@[simp] lemma cacheTranslation_events (st : RunnerState) (row : TranslationRow) :
    (cacheTranslation st row).events = st.events := rfl
@[simp] lemma cacheTranslation_activeJobs (st : RunnerState) (row : TranslationRow) :
    (cacheTranslation st row).activeJobs = st.activeJobs := rfl
@[simp] lemma cacheTranslation_cancelledJobs (st : RunnerState) (row : TranslationRow) :
    (cacheTranslation st row).cancelledJobs = st.cancelledJobs := rfl
@[simp] lemma cacheTranslation_providerCalls (st : RunnerState) (row : TranslationRow) :
    (cacheTranslation st row).providerCalls = st.providerCalls := rfl
@[simp] lemma cacheTranslation_rateLimitWaits (st : RunnerState) (row : TranslationRow) :
    (cacheTranslation st row).rateLimitWaits = st.rateLimitWaits := rfl
@[simp] lemma cacheTranslation_retrySleeps (st : RunnerState) (row : TranslationRow) :
    (cacheTranslation st row).retrySleeps = st.retrySleeps := rfl
@[simp] lemma cacheTranslation_translations (st : RunnerState) (row : TranslationRow) :
    (cacheTranslation st row).translations = st.translations ++ [row] := rfl

@[simp] lemma waitForRateLimit_resources (st : RunnerState) :
    (waitForRateLimit st).resources = st.resources := rfl
@[simp] lemma waitForRateLimit_items (st : RunnerState) :
    (waitForRateLimit st).items = st.items := rfl
@[simp] lemma waitForRateLimit_jobs (st : RunnerState) :
    (waitForRateLimit st).jobs = st.jobs := rfl
@[simp] lemma waitForRateLimit_translations (st : RunnerState) :
    (waitForRateLimit st).translations = st.translations := rfl
@[simp] lemma waitForRateLimit_events (st : RunnerState) :
    (waitForRateLimit st).events = st.events := rfl
@[simp] lemma waitForRateLimit_activeJobs (st : RunnerState) :
    (waitForRateLimit st).activeJobs = st.activeJobs := rfl
@[simp] lemma waitForRateLimit_cancelledJobs (st : RunnerState) :
    (waitForRateLimit st).cancelledJobs = st.cancelledJobs := rfl
@[simp] lemma waitForRateLimit_providerCalls (st : RunnerState) :
    (waitForRateLimit st).providerCalls = st.providerCalls := rfl
@[simp] lemma waitForRateLimit_retrySleeps (st : RunnerState) :
    (waitForRateLimit st).retrySleeps = st.retrySleeps := rfl
@[simp] lemma waitForRateLimit_rateLimitWaits (st : RunnerState) :
    (waitForRateLimit st).rateLimitWaits = st.rateLimitWaits + 1 := rfl

@[simp] lemma notePrv_resources (st : RunnerState) : (notePrv st).resources = st.resources :=
  rfl
@[simp] lemma notePrv_items (st : RunnerState) : (notePrv st).items = st.items := rfl
@[simp] lemma notePrv_jobs (st : RunnerState) : (notePrv st).jobs = st.jobs := rfl
@[simp] lemma notePrv_translations (st : RunnerState) :
    (notePrv st).translations = st.translations := rfl
@[simp] lemma notePrv_events (st : RunnerState) : (notePrv st).events = st.events := rfl
@[simp] lemma notePrv_activeJobs (st : RunnerState) :
    (notePrv st).activeJobs = st.activeJobs := rfl
@[simp] lemma notePrv_cancelledJobs (st : RunnerState) :
    (notePrv st).cancelledJobs = st.cancelledJobs := rfl
@[simp] lemma notePrv_rateLimitWaits (st : RunnerState) :
    (notePrv st).rateLimitWaits = st.rateLimitWaits := rfl
@[simp] lemma notePrv_retrySleeps (st : RunnerState) :
    (notePrv st).retrySleeps = st.retrySleeps := rfl
@[simp] lemma notePrv_providerCalls (st : RunnerState) :
    (notePrv st).providerCalls = st.providerCalls + 1 := rfl

@[simp] lemma noteSleep_resources (st : RunnerState) :
    (noteSleep st).resources = st.resources := rfl
@[simp] lemma noteSleep_items (st : RunnerState) : (noteSleep st).items = st.items := rfl
@[simp] lemma noteSleep_jobs (st : RunnerState) : (noteSleep st).jobs = st.jobs := rfl
@[simp] lemma noteSleep_translations (st : RunnerState) :
    (noteSleep st).translations = st.translations := rfl
@[simp] lemma noteSleep_events (st : RunnerState) : (noteSleep st).events = st.events := rfl
@[simp] lemma noteSleep_activeJobs (st : RunnerState) :
    (noteSleep st).activeJobs = st.activeJobs := rfl
@[simp] lemma noteSleep_cancelledJobs (st : RunnerState) :
    (noteSleep st).cancelledJobs = st.cancelledJobs := rfl
@[simp] lemma noteSleep_providerCalls (st : RunnerState) :
    (noteSleep st).providerCalls = st.providerCalls := rfl
@[simp] lemma noteSleep_rateLimitWaits (st : RunnerState) :
    (noteSleep st).rateLimitWaits = st.rateLimitWaits := rfl
@[simp] lemma noteSleep_retrySleeps (st : RunnerState) :
    (noteSleep st).retrySleeps = st.retrySleeps + 1 := rfl

lemma getResource_congr (st st2 : RunnerState) (r : String)
    (h : st.resources = st2.resources) : getResource st r = getResource st2 r := by
  unfold getResource
  rw [h]

lemma getCachedTranslation_congr (st st2 : RunnerState) (h loc : String)
    (he : st.translations = st2.translations) :
    getCachedTranslation st h loc = getCachedTranslation st2 h loc := by
  unfold getCachedTranslation
  rw [he]

lemma getItem_congr (st st2 : RunnerState) (i : String) (h : st.items = st2.items) :
    getItem st i = getItem st2 i := by
  unfold getItem
  rw [h]

lemma getCachedTranslation_cacheTranslation_of_miss (st : RunnerState)
    (row : TranslationRow) (h loc : String)
    (hnone : getCachedTranslation st h loc = none)
    (hkey : (row.source_hash == h && row.target_locale == loc) = true) :
    getCachedTranslation (cacheTranslation st row) h loc = some row := by
  unfold getCachedTranslation at *
  unfold cacheTranslation
  simp only
  rw [List.find?_append, hnone]
  simp [List.find?_cons, hkey]

end Runner

namespace Runner

lemma attemptItem_noresource (provider : ProviderFn) (jobId : String) (item : JobItem)
    (st0 : RunnerState) (h1 : getResource st0 item.resource_id = none) :
    attemptItem provider jobId item st0 =
      (updateItemStatus st0 item.id ItemStatus.processing none none,
        some (("Resource not found: ") ++ item.resource_id)) := by
  have h1b : getResource (updateItemStatus st0 item.id ItemStatus.processing none none)
      item.resource_id = none := h1
  simp only [attemptItem, h1b]

lemma attemptItem_hit (provider : ProviderFn) (jobId : String) (item : JobItem)
    (st0 : RunnerState) (resource : Resource) (row : TranslationRow)
    (h1 : getResource st0 item.resource_id = some resource)
    (h2 : getCachedTranslation st0 resource.content_hash item.target_locale = some row) :
    attemptItem provider jobId item st0 =
      (emit
        (updateJobProgress
          (updateItemStatus
            (emit (updateItemStatus st0 item.id ItemStatus.processing none none)
              (Event.itemCacheHit jobId item.id))
            item.id ItemStatus.completed (some row.translated_content) none)
          jobId)
        (Event.itemCompleted jobId item.id), none) := by
  have h1b : getResource (updateItemStatus st0 item.id ItemStatus.processing none none)
      item.resource_id = some resource := h1
  have h2b : getCachedTranslation
      (updateItemStatus st0 item.id ItemStatus.processing none none)
      resource.content_hash item.target_locale = some row := h2
  simp only [attemptItem, h1b, h2b]

lemma attemptItem_miss_ok (provider : ProviderFn) (jobId : String) (item : JobItem)
    (st0 : RunnerState) (resource : Resource) (resp : TranslationResponse)
    (h1 : getResource st0 item.resource_id = some resource)
    (h2 : getCachedTranslation st0 resource.content_hash item.target_locale = none)
    (h3 : provider ⟨resource.content, resource.locale, item.target_locale, resource.title⟩
        = .ok resp) :
    attemptItem provider jobId item st0 =
      (emit
        (updateJobProgress
          (updateItemStatus
            (cacheTranslation
              (notePrv (waitForRateLimit
                (updateItemStatus st0 item.id ItemStatus.processing none none)))
              ⟨resource.id, resource.locale, item.target_locale, resource.content_hash,
                resp.translatedText, resp.provider⟩)
            item.id ItemStatus.completed (some resp.translatedText) none)
          jobId)
        (Event.itemCompleted jobId item.id), none) := by
  have h1b : getResource (updateItemStatus st0 item.id ItemStatus.processing none none)
      item.resource_id = some resource := h1
  have h2b : getCachedTranslation
      (updateItemStatus st0 item.id ItemStatus.processing none none)
      resource.content_hash item.target_locale = none := h2
  simp only [attemptItem, h1b, h2b, h3]

lemma attemptItem_miss_fail (provider : ProviderFn) (jobId : String) (item : JobItem)
    (st0 : RunnerState) (resource : Resource) (msg : String)
    (h1 : getResource st0 item.resource_id = some resource)
    (h2 : getCachedTranslation st0 resource.content_hash item.target_locale = none)
    (h3 : provider ⟨resource.content, resource.locale, item.target_locale, resource.title⟩
        = .error msg) :
    attemptItem provider jobId item st0 =
      (notePrv (waitForRateLimit
        (updateItemStatus st0 item.id ItemStatus.processing none none)), some msg) := by
  have h1b : getResource (updateItemStatus st0 item.id ItemStatus.processing none none)
      item.resource_id = some resource := h1
  have h2b : getCachedTranslation
      (updateItemStatus st0 item.id ItemStatus.processing none none)
      resource.content_hash item.target_locale = none := h2
  simp only [attemptItem, h1b, h2b, h3]

end Runner

namespace Runner

@[simp] lemma getItem_emit (st : RunnerState) (e : Event) (i : String) :
    getItem (emit st e) i = getItem st i := rfl
@[simp] lemma getItem_updateJobProgress (st : RunnerState) (j i : String) :
    getItem (updateJobProgress st j) i = getItem st i := rfl
@[simp] lemma getItem_updateJobStatus (st : RunnerState) (j : String) (s : JobStatus)
    (em : Option String) (i : String) : getItem (updateJobStatus st j s em) i = getItem st i :=
  rfl
@[simp] lemma getItem_cacheTranslation (st : RunnerState) (row : TranslationRow) (i : String) :
    getItem (cacheTranslation st row) i = getItem st i := rfl
@[simp] lemma getItem_waitForRateLimit (st : RunnerState) (i : String) :
    getItem (waitForRateLimit st) i = getItem st i := rfl
@[simp] lemma getItem_notePrv (st : RunnerState) (i : String) :
    getItem (notePrv st) i = getItem st i := rfl
@[simp] lemma getItem_noteSleep (st : RunnerState) (i : String) :
    getItem (noteSleep st) i = getItem st i := rfl

@[simp] lemma getResource_emit (st : RunnerState) (e : Event) (r : String) :
    getResource (emit st e) r = getResource st r := rfl
@[simp] lemma getResource_updateItemStatus (st : RunnerState) (i : String) (s : ItemStatus)
    (tc em : Option String) (r : String) :
    getResource (updateItemStatus st i s tc em) r = getResource st r := rfl
@[simp] lemma getResource_updateItemRetry (st : RunnerState) (i : String) (rc : Nat)
    (msg : String) (r : String) :
    getResource (updateItemRetry st i rc msg) r = getResource st r := rfl
@[simp] lemma getResource_updateJobStatus (st : RunnerState) (j : String) (s : JobStatus)
    (em : Option String) (r : String) :
    getResource (updateJobStatus st j s em) r = getResource st r := rfl
@[simp] lemma getResource_updateJobProgress (st : RunnerState) (j r : String) :
    getResource (updateJobProgress st j) r = getResource st r := rfl
@[simp] lemma getResource_cacheTranslation (st : RunnerState) (row : TranslationRow)
    (r : String) : getResource (cacheTranslation st row) r = getResource st r := rfl
@[simp] lemma getResource_waitForRateLimit (st : RunnerState) (r : String) :
    getResource (waitForRateLimit st) r = getResource st r := rfl
@[simp] lemma getResource_notePrv (st : RunnerState) (r : String) :
    getResource (notePrv st) r = getResource st r := rfl
@[simp] lemma getResource_noteSleep (st : RunnerState) (r : String) :
    getResource (noteSleep st) r = getResource st r := rfl

@[simp] lemma getCachedTranslation_emit (st : RunnerState) (e : Event) (h loc : String) :
    getCachedTranslation (emit st e) h loc = getCachedTranslation st h loc := rfl
@[simp] lemma getCachedTranslation_updateItemStatus (st : RunnerState) (i : String)
    (s : ItemStatus) (tc em : Option String) (h loc : String) :
    getCachedTranslation (updateItemStatus st i s tc em) h loc
      = getCachedTranslation st h loc := rfl
@[simp] lemma getCachedTranslation_updateItemRetry (st : RunnerState) (i : String) (rc : Nat)
    (msg : String) (h loc : String) :
    getCachedTranslation (updateItemRetry st i rc msg) h loc
      = getCachedTranslation st h loc := rfl
@[simp] lemma getCachedTranslation_updateJobStatus (st : RunnerState) (j : String)
    (s : JobStatus) (em : Option String) (h loc : String) :
    getCachedTranslation (updateJobStatus st j s em) h loc
      = getCachedTranslation st h loc := rfl
@[simp] lemma getCachedTranslation_updateJobProgress (st : RunnerState) (j : String)
    (h loc : String) :
    getCachedTranslation (updateJobProgress st j) h loc = getCachedTranslation st h loc := rfl
@[simp] lemma getCachedTranslation_waitForRateLimit (st : RunnerState) (h loc : String) :
    getCachedTranslation (waitForRateLimit st) h loc = getCachedTranslation st h loc := rfl
@[simp] lemma getCachedTranslation_notePrv (st : RunnerState) (h loc : String) :
    getCachedTranslation (notePrv st) h loc = getCachedTranslation st h loc := rfl
@[simp] lemma getCachedTranslation_noteSleep (st : RunnerState) (h loc : String) :
    getCachedTranslation (noteSleep st) h loc = getCachedTranslation st h loc := rfl

@[simp] lemma getJob_emit (st : RunnerState) (e : Event) (j : String) :
    getJob (emit st e) j = getJob st j := rfl
@[simp] lemma getJob_updateItemStatus (st : RunnerState) (i : String) (s : ItemStatus)
    (tc em : Option String) (j : String) :
    getJob (updateItemStatus st i s tc em) j = getJob st j := rfl
@[simp] lemma getJob_updateItemRetry (st : RunnerState) (i : String) (rc : Nat) (msg : String)
    (j : String) : getJob (updateItemRetry st i rc msg) j = getJob st j := rfl
@[simp] lemma getJob_cacheTranslation (st : RunnerState) (row : TranslationRow) (j : String) :
    getJob (cacheTranslation st row) j = getJob st j := rfl
@[simp] lemma getJob_waitForRateLimit (st : RunnerState) (j : String) :
    getJob (waitForRateLimit st) j = getJob st j := rfl
@[simp] lemma getJob_notePrv (st : RunnerState) (j : String) :
    getJob (notePrv st) j = getJob st j := rfl
@[simp] lemma getJob_noteSleep (st : RunnerState) (j : String) :
    getJob (noteSleep st) j = getJob st j := rfl

end Runner

namespace Runner

lemma failLoopProvider (provider : ProviderFn) (jobId : String)
    (hprov : ∀ req, ∃ m, provider req = Except.error m) :
    ∀ (n : Nat) (item : JobItem) (st0 : RunnerState) (resource : Resource),
      item.max_retries - item.retry_count = n →
      getResource st0 item.resource_id = some resource →
      getCachedTranslation st0 resource.content_hash item.target_locale = none →
      (processJobItem provider jobId item st0).providerCalls
          = st0.providerCalls + max 1 n ∧
        (processJobItem provider jobId item st0).rateLimitWaits
          = st0.rateLimitWaits + max 1 n ∧
        (processJobItem provider jobId item st0).retrySleeps
          = st0.retrySleeps + (max 1 n - 1) ∧
        ∀ it0, getItem st0 item.id = some it0 →
          ∃ it1, getItem (processJobItem provider jobId item st0) item.id = some it1 ∧
            it1.status = ItemStatus.failed := by
  intro n
  induction n with
  | zero =>
    intro item st0 resource hn h1 h2
    obtain ⟨msg, hm⟩ :=
      hprov ⟨resource.content, resource.locale, item.target_locale, resource.title⟩
    have hA := attemptItem_miss_fail provider jobId item st0 resource msg h1 h2 hm
    have hge : ¬(item.retry_count + 1 < item.max_retries) := by omega
    rw [processJobItem_of_fail_final provider jobId item st0 _ msg hA hge]
    refine ⟨by simp, by simp, by simp, ?_⟩
    intro it0 hit0
    simp only [getItem_emit, getItem_updateJobProgress]
    rw [getItem_updateItemStatus]
    simp only [getItem_notePrv, getItem_waitForRateLimit]
    rw [getItem_updateItemStatus, hit0]
    exact ⟨_, rfl, rfl⟩
  | succ m ih =>
    intro item st0 resource hn h1 h2
    obtain ⟨msg, hm⟩ :=
      hprov ⟨resource.content, resource.locale, item.target_locale, resource.title⟩
    have hA := attemptItem_miss_fail provider jobId item st0 resource msg h1 h2 hm
    by_cases hlt : item.retry_count + 1 < item.max_retries
    · have hm1 : 1 ≤ m := by omega
      rw [processJobItem_of_fail_retry provider jobId item st0 _ msg hA hlt]
      have hn2 : ({ item with retry_count := item.retry_count + 1 } : JobItem).max_retries
          - ({ item with retry_count := item.retry_count + 1 } : JobItem).retry_count = m := by
        simp only
        omega
      have h1b : getResource
          (noteSleep (emit (updateItemRetry
              (notePrv (waitForRateLimit
                (updateItemStatus st0 item.id ItemStatus.processing none none)))
              item.id (item.retry_count + 1) msg)
            (Event.itemRetry jobId item.id (item.retry_count + 1))))
          ({ item with retry_count := item.retry_count + 1 } : JobItem).resource_id
          = some resource := by
        simpa using h1
      have h2b : getCachedTranslation
          (noteSleep (emit (updateItemRetry
              (notePrv (waitForRateLimit
                (updateItemStatus st0 item.id ItemStatus.processing none none)))
              item.id (item.retry_count + 1) msg)
            (Event.itemRetry jobId item.id (item.retry_count + 1))))
          resource.content_hash
          ({ item with retry_count := item.retry_count + 1 } : JobItem).target_locale
          = none := by
        simpa using h2
      obtain ⟨hc1, hc2, hc3, hc4⟩ :=
        ih ({ item with retry_count := item.retry_count + 1 })
          (noteSleep (emit (updateItemRetry
              (notePrv (waitForRateLimit
                (updateItemStatus st0 item.id ItemStatus.processing none none)))
              item.id (item.retry_count + 1) msg)
            (Event.itemRetry jobId item.id (item.retry_count + 1))))
          resource hn2 h1b h2b
      have hmax1 : max 1 m = m := Nat.max_eq_right hm1
      have hmax2 : max 1 (m + 1) = m + 1 := Nat.max_eq_right (by omega)
      refine ⟨?_, ?_, ?_, ?_⟩
      · rw [hc1]
        simp only [noteSleep_providerCalls, emit_providerCalls, updateItemRetry_providerCalls,
          notePrv_providerCalls, waitForRateLimit_providerCalls,
          updateItemStatus_providerCalls, hmax1, hmax2]
        omega
      · rw [hc2]
        simp only [noteSleep_rateLimitWaits, emit_rateLimitWaits,
          updateItemRetry_rateLimitWaits, notePrv_rateLimitWaits,
          waitForRateLimit_rateLimitWaits, updateItemStatus_rateLimitWaits, hmax1, hmax2]
        omega
      · rw [hc3]
        simp only [noteSleep_retrySleeps, emit_retrySleeps, updateItemRetry_retrySleeps,
          notePrv_retrySleeps, waitForRateLimit_retrySleeps, updateItemStatus_retrySleeps,
          hmax1, hmax2]
        omega
      · intro it0 hit0
        have hst4 : getItem
            (noteSleep (emit (updateItemRetry
                (notePrv (waitForRateLimit
                  (updateItemStatus st0 item.id ItemStatus.processing none none)))
                item.id (item.retry_count + 1) msg)
              (Event.itemRetry jobId item.id (item.retry_count + 1)))) item.id
            = some { it0 with
                retry_count := item.retry_count + 1
                error_message := some msg
                status := ItemStatus.pending } := by
          simp only [getItem_noteSleep, getItem_emit]
          rw [getItem_updateItemRetry]
          simp only [getItem_notePrv, getItem_waitForRateLimit]
          rw [getItem_updateItemStatus, hit0]
          rfl
        exact hc4 _ hst4
    · have hm0 : m = 0 := by omega
      subst hm0
      rw [processJobItem_of_fail_final provider jobId item st0 _ msg hA hlt]
      refine ⟨by simp, by simp, by simp, ?_⟩
      intro it0 hit0
      simp only [getItem_emit, getItem_updateJobProgress]
      rw [getItem_updateItemStatus]
      simp only [getItem_notePrv, getItem_waitForRateLimit]
      rw [getItem_updateItemStatus, hit0]
      exact ⟨_, rfl, rfl⟩

lemma failLoopNoResource (provider : ProviderFn) (jobId : String) :
    ∀ (n : Nat) (item : JobItem) (st0 : RunnerState),
      item.max_retries - item.retry_count = n →
      getResource st0 item.resource_id = none →
      (processJobItem provider jobId item st0).providerCalls = st0.providerCalls ∧
        (processJobItem provider jobId item st0).rateLimitWaits = st0.rateLimitWaits ∧
        (processJobItem provider jobId item st0).retrySleeps
          = st0.retrySleeps + (max 1 n - 1) ∧
        ∀ it0, getItem st0 item.id = some it0 →
          ∃ it1, getItem (processJobItem provider jobId item st0) item.id = some it1 ∧
            it1.status = ItemStatus.failed ∧
            it1.error_message = some (("Resource not found: ") ++ item.resource_id) := by
  intro n
  induction n with
  | zero =>
    intro item st0 hn h1
    have hA := attemptItem_noresource provider jobId item st0 h1
    have hge : ¬(item.retry_count + 1 < item.max_retries) := by omega
    rw [processJobItem_of_fail_final provider jobId item st0 _ _ hA hge]
    refine ⟨by simp, by simp, by simp, ?_⟩
    intro it0 hit0
    simp only [getItem_emit, getItem_updateJobProgress]
    rw [getItem_updateItemStatus]
    rw [getItem_updateItemStatus, hit0]
    exact ⟨_, rfl, rfl, rfl⟩
  | succ m ih =>
    intro item st0 hn h1
    have hA := attemptItem_noresource provider jobId item st0 h1
    by_cases hlt : item.retry_count + 1 < item.max_retries
    · have hm1 : 1 ≤ m := by omega
      rw [processJobItem_of_fail_retry provider jobId item st0 _ _ hA hlt]
      have hn2 : ({ item with retry_count := item.retry_count + 1 } : JobItem).max_retries
          - ({ item with retry_count := item.retry_count + 1 } : JobItem).retry_count = m := by
        simp only
        omega
      have h1b : getResource
          (noteSleep (emit (updateItemRetry
              (updateItemStatus st0 item.id ItemStatus.processing none none)
              item.id (item.retry_count + 1) (("Resource not found: ") ++ item.resource_id))
            (Event.itemRetry jobId item.id (item.retry_count + 1))))
          ({ item with retry_count := item.retry_count + 1 } : JobItem).resource_id
          = none := by
        simpa using h1
      obtain ⟨hc1, hc2, hc3, hc4⟩ :=
        ih ({ item with retry_count := item.retry_count + 1 })
          (noteSleep (emit (updateItemRetry
              (updateItemStatus st0 item.id ItemStatus.processing none none)
              item.id (item.retry_count + 1) (("Resource not found: ") ++ item.resource_id))
            (Event.itemRetry jobId item.id (item.retry_count + 1))))
          hn2 h1b
      have hmax1 : max 1 m = m := Nat.max_eq_right hm1
      have hmax2 : max 1 (m + 1) = m + 1 := Nat.max_eq_right (by omega)
      refine ⟨?_, ?_, ?_, ?_⟩
      · rw [hc1]
        simp
      · rw [hc2]
        simp
      · rw [hc3]
        simp only [noteSleep_retrySleeps, emit_retrySleeps, updateItemRetry_retrySleeps,
          updateItemStatus_retrySleeps, hmax1, hmax2]
        omega
      · intro it0 hit0
        have hst4 : getItem
            (noteSleep (emit (updateItemRetry
                (updateItemStatus st0 item.id ItemStatus.processing none none)
                item.id (item.retry_count + 1)
                (("Resource not found: ") ++ item.resource_id))
              (Event.itemRetry jobId item.id (item.retry_count + 1)))) item.id
            = some { it0 with
                retry_count := item.retry_count + 1
                error_message := some (("Resource not found: ") ++ item.resource_id)
                status := ItemStatus.pending } := by
          simp only [getItem_noteSleep, getItem_emit]
          rw [getItem_updateItemRetry]
          rw [getItem_updateItemStatus, hit0]
          rfl
        exact hc4 _ hst4
    · have hm0 : m = 0 := by omega
      subst hm0
      rw [processJobItem_of_fail_final provider jobId item st0 _ _ hA hlt]
      refine ⟨by simp, by simp, by simp, ?_⟩
      intro it0 hit0
      simp only [getItem_emit, getItem_updateJobProgress]
      rw [getItem_updateItemStatus]
      rw [getItem_updateItemStatus, hit0]
      exact ⟨_, rfl, rfl, rfl⟩

end Runner

/-- C2: the claim states an always-failing item is attempted exactly
maxRetries + 1 times.  Counterexample: a fresh item with max_retries 3
whose provider call always fails is attempted 3 times, not 4: retryCount
is incremented before the retryCount < maxRetries check, so the budget is
maxRetries total attempts. -/
theorem c2_counterexample :
    (Runner.processJobItem Runner.provFail ("j1") Runner.item1 Runner.stOneItem).providerCalls
        = 3 ∧
      Runner.item1.max_retries + 1 = 4 ∧ (3 : Nat) ≠ 4 := by
  have h := Runner.failLoopProvider Runner.provFail ("j1")
    (fun _ => ⟨("HTTP 500 internal server error"), rfl⟩) 3 Runner.item1 Runner.stOneItem
    Runner.res1 rfl rfl rfl
  exact ⟨h.1.trans (by decide), by decide, by decide⟩

/-- C2 amended: an item whose provider call always fails with a retryable
error is attempted exactly max(1, maxRetries - retryCount) times — for a
fresh item, maxRetries times, not maxRetries + 1 — with the retry-delay
sleep between consecutive attempts (attempts - 1 sleeps) and one
rate-limit wait per attempt, and the item is then marked failed. -/
theorem c2_retry_bound (provider : Runner.ProviderFn) (jobId : String)
    (hprov : ∀ req, ∃ m, provider req = Except.error m)
    (item : Runner.JobItem) (st0 : Runner.RunnerState) (resource : Runner.Resource)
    (h1 : Runner.getResource st0 item.resource_id = some resource)
    (h2 : Runner.getCachedTranslation st0 resource.content_hash item.target_locale = none) :
    (Runner.processJobItem provider jobId item st0).providerCalls
        = st0.providerCalls + max 1 (item.max_retries - item.retry_count) ∧
      (Runner.processJobItem provider jobId item st0).rateLimitWaits
        = st0.rateLimitWaits + max 1 (item.max_retries - item.retry_count) ∧
      (Runner.processJobItem provider jobId item st0).retrySleeps
        = st0.retrySleeps + (max 1 (item.max_retries - item.retry_count) - 1) ∧
      ∀ it0, Runner.getItem st0 item.id = some it0 →
        ∃ it1, Runner.getItem (Runner.processJobItem provider jobId item st0) item.id
            = some it1 ∧ it1.status = Runner.ItemStatus.failed :=
  Runner.failLoopProvider provider jobId hprov (item.max_retries - item.retry_count)
    item st0 resource rfl h1 h2

/-- Witness for the amended C2 statement: the concrete always-failing
item makes 3 provider calls, sleeps twice, and ends failed. -/
theorem c2_retry_bound_witness :
    (Runner.processJobItem Runner.provFail ("j1") Runner.item1 Runner.stOneItem).providerCalls
        = Runner.stOneItem.providerCalls
          + max 1 (Runner.item1.max_retries - Runner.item1.retry_count) ∧
      (Runner.processJobItem Runner.provFail ("j1") Runner.item1 Runner.stOneItem).retrySleeps
        = Runner.stOneItem.retrySleeps
          + (max 1 (Runner.item1.max_retries - Runner.item1.retry_count) - 1) ∧
      (Runner.getItem (Runner.processJobItem Runner.provFail ("j1") Runner.item1
          Runner.stOneItem) Runner.item1.id).map (fun it => it.status)
        = some Runner.ItemStatus.failed := by
  have h := c2_retry_bound Runner.provFail ("j1")
    (fun _ => ⟨("HTTP 500 internal server error"), rfl⟩)
    Runner.item1 Runner.stOneItem Runner.res1 rfl rfl
  refine ⟨h.1, h.2.2.1, ?_⟩
  obtain ⟨it1, hit1, hst⟩ := h.2.2.2 Runner.item1 rfl
  rw [hit1]
  simp [hst]

/-- C8: the claim states a non-retryable failure — in particular a missing
resource — is attempted exactly once with no backoff.  Counterexample: an
item whose resource is absent and max_retries is 3 goes through two
retry-delay sleeps (three processing attempts) before being marked
failed. -/
theorem c8_counterexample :
    (Runner.processJobItem Runner.provFail ("j1") Runner.item1
        Runner.stNoResource).retrySleeps = 2 ∧
      (2 : Nat) ≠ 0 := by
  have h := Runner.failLoopNoResource Runner.provFail ("j1") 3 Runner.item1
    Runner.stNoResource rfl rfl
  exact ⟨h.2.2.1.trans (by decide), by decide⟩

/-- C8 amended: the runner classifies no error as non-retryable; an item
whose resource is missing is retried like any other failure — it makes
max(1, maxRetries - retryCount) processing attempts with the retry-delay
sleep between them — although no provider call and no rate-limit wait ever
happens for it, and it is finally marked failed with the resource-not-found
message recorded. -/
theorem c8_noresource_retry (provider : Runner.ProviderFn) (jobId : String)
    (item : Runner.JobItem) (st0 : Runner.RunnerState)
    (h1 : Runner.getResource st0 item.resource_id = none) :
    (Runner.processJobItem provider jobId item st0).providerCalls = st0.providerCalls ∧
      (Runner.processJobItem provider jobId item st0).rateLimitWaits = st0.rateLimitWaits ∧
      (Runner.processJobItem provider jobId item st0).retrySleeps
        = st0.retrySleeps + (max 1 (item.max_retries - item.retry_count) - 1) ∧
      ∀ it0, Runner.getItem st0 item.id = some it0 →
        ∃ it1, Runner.getItem (Runner.processJobItem provider jobId item st0) item.id
            = some it1 ∧ it1.status = Runner.ItemStatus.failed ∧
          it1.error_message = some (("Resource not found: ") ++ item.resource_id) :=
  Runner.failLoopNoResource provider jobId (item.max_retries - item.retry_count) item st0
    rfl h1

/-- Witness for the amended C8 statement at the concrete missing-resource
item. -/
theorem c8_noresource_retry_witness :
    (Runner.processJobItem Runner.provFail ("j1") Runner.item1
        Runner.stNoResource).providerCalls = Runner.stNoResource.providerCalls ∧
      (Runner.processJobItem Runner.provFail ("j1") Runner.item1
        Runner.stNoResource).retrySleeps
        = Runner.stNoResource.retrySleeps
          + (max 1 (Runner.item1.max_retries - Runner.item1.retry_count) - 1) ∧
      (Runner.getItem (Runner.processJobItem Runner.provFail ("j1") Runner.item1
          Runner.stNoResource) Runner.item1.id).map (fun it => (it.status, it.error_message))
        = some (Runner.ItemStatus.failed,
            some (("Resource not found: ") ++ Runner.item1.resource_id)) := by
  have h := c8_noresource_retry Runner.provFail ("j1") Runner.item1 Runner.stNoResource rfl
  refine ⟨h.1, h.2.2.1, ?_⟩
  obtain ⟨it1, hit1, hst, hmsg⟩ := h.2.2.2 Runner.item1 rfl
  rw [hit1]
  simp [hst, hmsg]

namespace Runner

@[simp] lemma updateJobProgress_events (st : RunnerState) (j : String) :
    (updateJobProgress st j).events = st.events ++
      [Event.progressEv j (st.items.countP (isJobItem j))
        (st.items.countP (isCompletedItem j)) (st.items.countP (isFailedItem j))
        (if 0 < st.items.countP (isJobItem j) then
          ((st.items.countP (isCompletedItem j) : ℚ)
              / (st.items.countP (isJobItem j) : ℚ)) * 100
        else 0)] := rfl

lemma processJobItem_of_success_eq (provider : ProviderFn) (jobId : String) (item : JobItem)
    (st st1 : RunnerState) (h : attemptItem provider jobId item st = (st1, none)) :
    processJobItem provider jobId item st = st1 := by
  have h2 := processJobItem_of_success provider jobId item st (by rw [h])
  rw [h] at h2
  exact h2

end Runner

/-- C1: a job item whose (content hash, target locale) pair is already
cached is completed from the cache with item:cache-hit emitted, no
provider call and no rate-limit wait; processing two items of the
identical pair therefore invokes the provider exactly once — the second
item is served from the cache entry stored by the first. -/
theorem c1_cache_exactly_once :
    (∀ (provider : Runner.ProviderFn) (jobId : String) (st0 : Runner.RunnerState)
        (item : Runner.JobItem) (resource : Runner.Resource) (row : Runner.TranslationRow),
      Runner.getResource st0 item.resource_id = some resource →
      Runner.getCachedTranslation st0 resource.content_hash item.target_locale = some row →
      (Runner.processJobItem provider jobId item st0).providerCalls = st0.providerCalls ∧
        (Runner.processJobItem provider jobId item st0).rateLimitWaits
          = st0.rateLimitWaits ∧
        Runner.Event.itemCacheHit jobId item.id
          ∈ (Runner.processJobItem provider jobId item st0).events ∧
        ∀ it0, Runner.getItem st0 item.id = some it0 →
          Runner.getItem (Runner.processJobItem provider jobId item st0) item.id
            = some { it0 with
                status := Runner.ItemStatus.completed
                translated_content := some row.translated_content }) ∧
    (∀ (provider : Runner.ProviderFn) (jobId : String) (st0 : Runner.RunnerState)
        (i1 i2 : Runner.JobItem) (r1 r2 : Runner.Resource)
        (resp : Runner.TranslationResponse),
      Runner.getResource st0 i1.resource_id = some r1 →
      Runner.getResource st0 i2.resource_id = some r2 →
      r2.content_hash = r1.content_hash →
      i2.target_locale = i1.target_locale →
      Runner.getCachedTranslation st0 r1.content_hash i1.target_locale = none →
      provider ⟨r1.content, r1.locale, i1.target_locale, r1.title⟩ = .ok resp →
      i2.id ≠ i1.id →
      Runner.getItem st0 i2.id = some i2 →
      (Runner.processJobItem provider jobId i2
          (Runner.processJobItem provider jobId i1 st0)).providerCalls
        = st0.providerCalls + 1 ∧
      (Runner.processJobItem provider jobId i2
          (Runner.processJobItem provider jobId i1 st0)).rateLimitWaits
        = st0.rateLimitWaits + 1 ∧
      Runner.getItem (Runner.processJobItem provider jobId i2
          (Runner.processJobItem provider jobId i1 st0)) i2.id
        = some { i2 with
            status := Runner.ItemStatus.completed
            translated_content := some resp.translatedText } ∧
      Runner.Event.itemCacheHit jobId i2.id ∈
        (Runner.processJobItem provider jobId i2
          (Runner.processJobItem provider jobId i1 st0)).events) := by
  constructor
  · intro provider jobId st0 item resource row h1 h2
    have hA := Runner.attemptItem_hit provider jobId item st0 resource row h1 h2
    have hs := Runner.processJobItem_of_success_eq provider jobId item st0 _ hA
    rw [hs]
    refine ⟨by simp, by simp, by simp, ?_⟩
    intro it0 hit0
    simp only [Runner.getItem_emit, Runner.getItem_updateJobProgress]
    rw [Runner.getItem_updateItemStatus]
    simp only [Runner.getItem_emit]
    rw [Runner.getItem_updateItemStatus, hit0]
    rfl
  · intro provider jobId st0 i1 i2 r1 r2 resp h1 h2 hh hl hmiss hok hid hit2
    have hA1 := Runner.attemptItem_miss_ok provider jobId i1 st0 r1 resp h1 hmiss hok
    have hs1 := Runner.processJobItem_of_success_eq provider jobId i1 st0 _ hA1
    have hR2 : Runner.getResource (Runner.processJobItem provider jobId i1 st0)
        i2.resource_id = some r2 := by
      rw [hs1]
      simpa using h2
    have hC2 : Runner.getCachedTranslation (Runner.processJobItem provider jobId i1 st0)
        r2.content_hash i2.target_locale
        = some ⟨r1.id, r1.locale, i1.target_locale, r1.content_hash, resp.translatedText,
            resp.provider⟩ := by
      rw [hs1]
      simp only [Runner.getCachedTranslation_emit,
        Runner.getCachedTranslation_updateJobProgress,
        Runner.getCachedTranslation_updateItemStatus]
      apply Runner.getCachedTranslation_cacheTranslation_of_miss
      · simp only [Runner.getCachedTranslation_notePrv,
          Runner.getCachedTranslation_waitForRateLimit,
          Runner.getCachedTranslation_updateItemStatus]
        rw [hh, hl]
        exact hmiss
      · simp [hh, hl]
    have hA2 := Runner.attemptItem_hit provider jobId i2
      (Runner.processJobItem provider jobId i1 st0) r2
      ⟨r1.id, r1.locale, i1.target_locale, r1.content_hash, resp.translatedText,
        resp.provider⟩ hR2 hC2
    have hs2 := Runner.processJobItem_of_success_eq provider jobId i2
      (Runner.processJobItem provider jobId i1 st0) _ hA2
    refine ⟨?_, ?_, ?_, ?_⟩
    · rw [hs2, hs1]
      simp
    · rw [hs2, hs1]
      simp
    · rw [hs2]
      simp only [Runner.getItem_emit, Runner.getItem_updateJobProgress]
      rw [Runner.getItem_updateItemStatus]
      simp only [Runner.getItem_emit]
      rw [Runner.getItem_updateItemStatus]
      rw [hs1]
      simp only [Runner.getItem_emit, Runner.getItem_updateJobProgress]
      rw [Runner.getItem_updateItemStatus_ne _ _ _ _ _ _ hid]
      simp only [Runner.getItem_cacheTranslation, Runner.getItem_notePrv,
        Runner.getItem_waitForRateLimit]
      rw [Runner.getItem_updateItemStatus_ne _ _ _ _ _ _ hid, hit2]
      rfl
    · rw [hs2]
      simp

/-- Witness for C1: a cached item completes with no provider call and a
cache-hit event, and the two items of stTwoItems translating the
identical (h1, fr) pair make exactly one provider call in total. -/
theorem c1_cache_exactly_once_witness :
    ((Runner.processJobItem Runner.provFail ("j1") Runner.item1
          Runner.stCached).providerCalls = Runner.stCached.providerCalls ∧
      (Runner.processJobItem Runner.provFail ("j1") Runner.item1
          Runner.stCached).rateLimitWaits = Runner.stCached.rateLimitWaits ∧
      Runner.Event.itemCacheHit ("j1") Runner.item1.id
        ∈ (Runner.processJobItem Runner.provFail ("j1") Runner.item1
            Runner.stCached).events ∧
      Runner.getItem (Runner.processJobItem Runner.provFail ("j1") Runner.item1
          Runner.stCached) Runner.item1.id
        = some { Runner.item1 with
            status := Runner.ItemStatus.completed
            translated_content := some ("Bonjour") }) ∧
    (Runner.processJobItem Runner.provOk ("j1") Runner.item2
        (Runner.processJobItem Runner.provOk ("j1") Runner.item1
          Runner.stTwoItems)).providerCalls
      = Runner.stTwoItems.providerCalls + 1 ∧
    Runner.getItem (Runner.processJobItem Runner.provOk ("j1") Runner.item2
        (Runner.processJobItem Runner.provOk ("j1") Runner.item1 Runner.stTwoItems))
        Runner.item2.id
      = some { Runner.item2 with
          status := Runner.ItemStatus.completed
          translated_content := some ("Bonjour") } ∧
    Runner.Event.itemCacheHit ("j1") Runner.item2.id ∈
      (Runner.processJobItem Runner.provOk ("j1") Runner.item2
        (Runner.processJobItem Runner.provOk ("j1") Runner.item1 Runner.stTwoItems)).events
    := by
  have hgen := c1_cache_exactly_once.1 Runner.provFail ("j1") Runner.stCached Runner.item1
    Runner.res1 ⟨("r1"), ("en"), ("fr"), ("h1"), ("Bonjour"), ("test-provider")⟩ rfl rfl
  have hsc := c1_cache_exactly_once.2 Runner.provOk ("j1") Runner.stTwoItems Runner.item1
    Runner.item2 Runner.res1 Runner.res1 ⟨("Bonjour"), ("test-provider")⟩ rfl rfl rfl rfl
    rfl rfl (by decide) rfl
  exact ⟨⟨hgen.1, hgen.2.1, hgen.2.2.1, hgen.2.2.2 Runner.item1 rfl⟩,
    hsc.1, hsc.2.2.1, hsc.2.2.2⟩

namespace Runner

@[simp] lemma addCancelled_resources (st : RunnerState) (j : String) :
    (addCancelled st j).resources = st.resources := by
  unfold addCancelled
  split <;> rfl

@[simp] lemma addCancelled_items (st : RunnerState) (j : String) :
    (addCancelled st j).items = st.items := by
  unfold addCancelled
  split <;> rfl

@[simp] lemma addCancelled_jobs (st : RunnerState) (j : String) :
    (addCancelled st j).jobs = st.jobs := by
  unfold addCancelled
  split <;> rfl

@[simp] lemma addCancelled_events (st : RunnerState) (j : String) :
    (addCancelled st j).events = st.events := by
  unfold addCancelled
  split <;> rfl

@[simp] lemma addCancelled_activeJobs (st : RunnerState) (j : String) :
    (addCancelled st j).activeJobs = st.activeJobs := by
  unfold addCancelled
  split <;> rfl

lemma addCancelled_contains (st : RunnerState) (j : String) :
    (addCancelled st j).cancelledJobs.contains j = true := by
  unfold addCancelled
  split
  · next h => exact h
  · simp

@[simp] lemma removeCancelled_resources (st : RunnerState) (j : String) :
    (removeCancelled st j).resources = st.resources := rfl
@[simp] lemma removeCancelled_items (st : RunnerState) (j : String) :
    (removeCancelled st j).items = st.items := rfl
@[simp] lemma removeCancelled_jobs (st : RunnerState) (j : String) :
    (removeCancelled st j).jobs = st.jobs := rfl
@[simp] lemma removeCancelled_events (st : RunnerState) (j : String) :
    (removeCancelled st j).events = st.events := rfl
@[simp] lemma getJob_removeCancelled (st : RunnerState) (j j2 : String) :
    getJob (removeCancelled st j) j2 = getJob st j2 := rfl
@[simp] lemma getJob_addCancelled (st : RunnerState) (j j2 : String) :
    getJob (addCancelled st j) j2 = getJob st j2 := by
  unfold addCancelled
  split <;> rfl

end Runner

/-- C10: cancelling an active job persists no status change and only sets
the cooperative flag and emits job:cancelled; the item loop then stops
before the next item, leaving all remaining items untouched; finalizeJob
persists the terminal status completed — never cancelled — and emits
job:completed; the persisted status cancelled is written exactly when the
job is not in the active set at cancelJob time, and job:cancelled is
emitted in both cases. -/
theorem c10_cancel_semantics :
    (∀ (st : Runner.RunnerState) (jobId : String),
      st.activeJobs.contains jobId = true →
      (Runner.cancelJob st jobId).jobs = st.jobs ∧
        (Runner.cancelJob st jobId).items = st.items ∧
        (Runner.cancelJob st jobId).events = st.events ++ [Runner.Event.jobCancelled jobId] ∧
        (Runner.cancelJob st jobId).cancelledJobs.contains jobId = true) ∧
    (∀ (provider : Runner.ProviderFn) (jobId : String) (items : List Runner.JobItem)
        (st : Runner.RunnerState),
      st.cancelledJobs.contains jobId = true →
      Runner.processItems provider jobId items st = st) ∧
    (∀ (st : Runner.RunnerState) (jobId : String) (j : Runner.JobRec),
      Runner.getJob st jobId = some j →
      Runner.getJob (Runner.finalizeJob st jobId) jobId
          = some { j with status := Runner.JobStatus.completed } ∧
        (Runner.finalizeJob st jobId).items = st.items ∧
        (Runner.finalizeJob st jobId).events
          = st.events ++ [Runner.Event.jobCompleted jobId]) ∧
    (∀ (st : Runner.RunnerState) (jobId : String) (j : Runner.JobRec),
      st.activeJobs.contains jobId = false →
      Runner.getJob st jobId = some j →
      Runner.getJob (Runner.cancelJob st jobId) jobId
          = some { j with status := Runner.JobStatus.cancelled } ∧
        Runner.Event.jobCancelled jobId ∈ (Runner.cancelJob st jobId).events) := by
  refine ⟨?_, ?_, ?_, ?_⟩
  · intro st jobId h
    simp only [Runner.cancelJob]
    have hc : ((Runner.addCancelled st jobId).activeJobs.contains jobId) = true := by
      rw [Runner.addCancelled_activeJobs]
      exact h
    rw [if_pos hc]
    exact ⟨by simp, by simp, by simp,
      by simpa using Runner.addCancelled_contains st jobId⟩
  · intro provider jobId items st h
    cases items with
    | nil => rfl
    | cons a t =>
      simp only [Runner.processItems]
      rw [if_pos h]
  · intro st jobId j hj
    unfold Runner.finalizeJob
    refine ⟨?_, by simp, by simp⟩
    simp only [Runner.getJob_emit]
    rw [Runner.getJob_updateJobStatus, hj]
    simp [ite_self]
    rfl
  · intro st jobId j hF hj
    simp only [Runner.cancelJob]
    have hc : ((Runner.addCancelled st jobId).activeJobs.contains jobId) = false := by
      rw [Runner.addCancelled_activeJobs]
      exact hF
    rw [if_neg (by rw [hc]; exact Bool.false_ne_true)]
    constructor
    · simp only [Runner.getJob_emit, Runner.getJob_removeCancelled]
      rw [Runner.getJob_updateJobStatus]
      rw [Runner.getJob_addCancelled, hj]
      rfl
    · simp

/-- Witness for C10 at concrete states: cancelling active j1 changes no
job row and flags it; the loop with a remaining item stops at once; the
finalization persists completed and emits job:completed; cancelling the
inactive j1 persists cancelled. -/
theorem c10_cancel_semantics_witness :
    ((Runner.cancelJob Runner.stTwoItems ("j1")).jobs = Runner.stTwoItems.jobs ∧
      (Runner.cancelJob Runner.stTwoItems ("j1")).items = Runner.stTwoItems.items ∧
      (Runner.cancelJob Runner.stTwoItems ("j1")).events
        = Runner.stTwoItems.events ++ [Runner.Event.jobCancelled ("j1")] ∧
      (Runner.cancelJob Runner.stTwoItems ("j1")).cancelledJobs.contains ("j1") = true) ∧
    Runner.processItems Runner.provFail ("j1") [Runner.item2]
        (Runner.cancelJob Runner.stTwoItems ("j1"))
      = Runner.cancelJob Runner.stTwoItems ("j1") ∧
    Runner.getJob (Runner.finalizeJob Runner.stTwoItems ("j1")) ("j1")
      = some { Runner.job1 with status := Runner.JobStatus.completed } ∧
    Runner.getJob (Runner.cancelJob Runner.stOneItem ("j1")) ("j1")
      = some { Runner.job1 with status := Runner.JobStatus.cancelled } := by
  refine ⟨?_, ?_, ?_, ?_⟩
  · exact c10_cancel_semantics.1 Runner.stTwoItems ("j1") rfl
  · exact c10_cancel_semantics.2.1 Runner.provFail ("j1") [Runner.item2]
      (Runner.cancelJob Runner.stTwoItems ("j1")) (by decide)
  · exact (c10_cancel_semantics.2.2.1 Runner.stTwoItems ("j1")
      { Runner.job1 with status := Runner.JobStatus.running } rfl).1
  · exact (c10_cancel_semantics.2.2.2 Runner.stOneItem ("j1") Runner.job1 rfl rfl).1

/-- C3: the poll loop guard compares maxConcurrency against the
currentConcurrency field, which is initialised to 0 and never written
afterwards, so the guard never blocks a dispatch: from two pending jobs
and maxConcurrency 1 the loop reaches a state with two concurrently
active jobs. -/
theorem c3_concurrency_not_enforced :
    Sched.Reachable Sched.c3init Sched.c3final ∧
      Sched.c3final.activeJobs.length = 2 ∧
      Sched.c3init.maxConcurrency = 1 := by
  refine ⟨?_, by decide, by decide⟩
  have s1 : Sched.Step Sched.c3init Sched.c3mid :=
    Sched.Step.dispatch Sched.c3init Sched.c3job1 (by decide) (by decide)
  have s2 : Sched.Step Sched.c3mid Sched.c3final :=
    Sched.Step.dispatch Sched.c3mid Sched.c3job2 (by decide) (by decide)
  exact Relation.ReflTransGen.head s1 (Relation.ReflTransGen.single s2)
